import Mathlib

/-!
# Verification of the finance-tracker persistence core

A shallow embedding of the repository's persistence store
(`src/utils/database.py`), reminder engine (`src/utils/reminders.py`) and
entity models (`src/models/*.py`).  SQLite rows are embedded as Lean
structures, tables as lists, `REAL` amounts as exact rationals, ISO date
strings as `String` compared lexicographically (as SQLite's `BETWEEN` and
`<=` do on `TEXT`), and Python `None` as `Option`.
-/

namespace FinanceTracker

/-- Lexicographic order on character lists by code point, as Python string
comparison and SQLite TEXT comparison behave on ASCII data. -/
def charListLt : List Char → List Char → Bool
  | [], [] => false
  | [], _ :: _ => true
  | _ :: _, [] => false
  | a :: as, b :: bs =>
    if a.toNat < b.toNat then true
    else if b.toNat < a.toNat then false
    else charListLt as bs

/-- Strict lexicographic string comparison. -/
def strLt (a b : String) : Bool := charListLt a.toList b.toList

/-- Lexicographic `<=`, mirroring SQLite `BETWEEN`/`<=` on TEXT and Python
`<=` on ISO date strings. -/
def strLe (a b : String) : Bool := !(strLt b a)

/-- Python truthiness of an optional integer id (`None` and `0` are falsy). -/
def truthyId : Option Nat → Bool
  | none => false
  | some n => decide (n ≠ 0)

/-- Python truthiness of an optional string (`None` and `""` are falsy). -/
def truthyStr : Option String → Bool
  | none => false
  | some s => decide (s ≠ "")

/-- A Python `datetime` value: calendar fields plus a time-of-day component
(seconds since midnight; `strftime("%Y-%m-%d")` ignores it,
`strptime(_, "%Y-%m-%d")` sets it to 0). -/
structure PyDateTime where
  year : Nat
  month : Nat
  day : Nat
  tod : Nat
deriving DecidableEq, Repr

/-- Zero-pad a natural to a digit width, as `strftime` does. -/
def padNum (width n : Nat) : String :=
  let s := toString n
  String.mk (List.replicate (width - s.length) '0') ++ s

/-- `datetime.strftime("%Y-%m-%d")`. -/
def PyDateTime.strftimeYMD (d : PyDateTime) : String :=
  padNum 4 d.year ++ "-" ++ padNum 2 d.month ++ "-" ++ padNum 2 d.day

/-- The `date` attribute of a `Transaction` object may hold a `datetime` or
an ISO string; the code branches on `isinstance(date, datetime)`. -/
inductive PyDate where
  | dt (d : PyDateTime)
  | str (s : String)
deriving DecidableEq, Repr

/-- `date.strftime("%Y-%m-%d") if isinstance(date, datetime) else date`. -/
def PyDate.toStr : PyDate → String
  | .dt d => d.strftimeYMD
  | .str s => s

/-! ## Entity value objects (src/models) -/

/-- `models.transaction.Transaction` after `__init__` (`date` and `time`
have been defaulted by the constructor). -/
structure Transaction where
  id : Option Nat
  transaction_type : String
  amount : ℚ
  category_id : Option Nat
  subcategory_id : Option Nat
  account_id : Option Nat
  to_account_id : Option Nat
  date : PyDate
  time : String
  description : String
  payment_method : String
  tags : String
  receipt_path : Option String
  recurring_id : Option Nat
deriving DecidableEq, Repr

/-- `models.account.Account`. -/
structure Account where
  id : Option Nat
  name : String
  account_type : String
  initial_balance : ℚ
  current_balance : ℚ
  currency : String
  icon : String
  color : String
  is_credit_card : Bool
  credit_limit : ℚ
  due_date : Option String
  interest_rate : ℚ
  notes : String
deriving DecidableEq, Repr

/-- `models.recurring.RecurringTransaction`. -/
structure RecurringTransaction where
  id : Option Nat
  transaction_type : String
  amount : ℚ
  category_id : Option Nat
  subcategory_id : Option Nat
  account_id : Option Nat
  description : String
  frequency : String
  custom_interval : Nat
  start_date : Option String
  end_date : Option String
  next_due_date : Option String
  auto_create : Bool
  active : Bool
deriving DecidableEq, Repr

/-! ## Store rows (src/utils/database.py tables) -/

/-- A row of the `accounts` table. -/
structure AccountRow where
  id : Nat
  name : String
  account_type : String
  initial_balance : ℚ
  current_balance : ℚ
  currency : String
  icon : String
  color : String
  is_credit_card : Bool
  credit_limit : ℚ
  due_date : Option String
  interest_rate : ℚ
  notes : String
deriving DecidableEq, Repr

/-- A row of the `transactions` table (`date` is stored as TEXT). -/
structure TxnRow where
  id : Nat
  transaction_type : String
  amount : ℚ
  category_id : Option Nat
  subcategory_id : Option Nat
  account_id : Option Nat
  to_account_id : Option Nat
  date : String
  time : Option String
  description : String
  payment_method : String
  tags : String
  receipt_path : Option String
  recurring_id : Option Nat
deriving DecidableEq, Repr

/-- A row of the `budgets` table. -/
structure BudgetRow where
  id : Nat
  category_id : Option Nat
  amount : ℚ
  period : String
  start_date : Option String
  end_date : Option String
  alert_percentage : ℚ
  spent : ℚ
deriving DecidableEq, Repr

/-- A row of the `recurring_transactions` table. -/
structure RecurringRow where
  id : Nat
  transaction_type : String
  amount : ℚ
  category_id : Option Nat
  subcategory_id : Option Nat
  account_id : Option Nat
  description : String
  frequency : String
  custom_interval : Nat
  start_date : Option String
  end_date : Option String
  next_due_date : Option String
  auto_create : Bool
  active : Bool
deriving DecidableEq, Repr

/-- A row of the `categories` table. -/
structure CategoryRow where
  id : Nat
  name : String
  category_type : String
  icon : String
  color : String
deriving DecidableEq, Repr

/-- Store state: the tables touched by the verified operations plus the
autoincrement cursor of the `transactions` table. -/
structure DB where
  transactions : List TxnRow
  accounts : List AccountRow
  budgets : List BudgetRow
  categories : List CategoryRow
  recurring_transactions : List RecurringRow
  next_transaction_id : Nat
deriving DecidableEq, Repr

/-! ## Persistence store operations -/

/-- Effect of `UPDATE accounts SET current_balance = current_balance + ?
WHERE id=?` on a single row. -/
def applyDelta (account_id : Nat) (amount : ℚ) (a : AccountRow) : AccountRow :=
  if a.id = account_id then { a with current_balance := a.current_balance + amount } else a

/-- `Database.update_account_balance`. -/
def update_account_balance (db : DB) (account_id : Nat) (amount : ℚ) : DB :=
  { db with accounts := db.accounts.map (applyDelta account_id amount) }

/-- `Database.get_transaction_by_id` (the WHERE clause compares the stored
integer key with the given Python value, which may be `None`). -/
def get_transaction_by_id (db : DB) (transaction_id : Option Nat) : Option TxnRow :=
  db.transactions.find? (fun r => some r.id == transaction_id)

/-- The row inserted by `Database.add_transaction`, with the fresh
autoincrement id. -/
def insertedRow (nid : Nat) (t : Transaction) : TxnRow :=
  { id := nid
    transaction_type := t.transaction_type
    amount := t.amount
    category_id := t.category_id
    subcategory_id := t.subcategory_id
    account_id := t.account_id
    to_account_id := t.to_account_id
    date := t.date.toStr
    time := some t.time
    description := t.description
    payment_method := t.payment_method
    tags := t.tags
    receipt_path := t.receipt_path
    recurring_id := t.recurring_id }

/-- `Database.add_transaction`: insert the row, then apply the signed
balance deltas exactly as the Python `if/elif` chain does.  Returns the new
store and `cursor.lastrowid`. -/
def add_transaction (db : DB) (t : Transaction) : DB × Nat :=
  let row := insertedRow db.next_transaction_id t
  let db1 : DB := { db with
    transactions := db.transactions ++ [row]
    next_transaction_id := db.next_transaction_id + 1 }
  let db2 :=
    if (t.transaction_type == "Expense") && truthyId t.account_id then
      update_account_balance db1 (t.account_id.getD 0) (-t.amount)
    else if (t.transaction_type == "Income") && truthyId t.account_id then
      update_account_balance db1 (t.account_id.getD 0) t.amount
    else if t.transaction_type == "Transfer" then
      let dbA :=
        if truthyId t.account_id then
          update_account_balance db1 (t.account_id.getD 0) (-t.amount)
        else db1
      if truthyId t.to_account_id then
        update_account_balance dbA (t.to_account_id.getD 0) t.amount
      else dbA
    else db1
  (db2, row.id)

/-- The `UPDATE transactions SET ...` of `Database.update_transaction`:
every listed column is overwritten; `id` and `recurring_id` are not in the
SET list and keep their stored values. -/
def setFields (t : Transaction) (r : TxnRow) : TxnRow :=
  { r with
    transaction_type := t.transaction_type
    amount := t.amount
    category_id := t.category_id
    subcategory_id := t.subcategory_id
    account_id := t.account_id
    to_account_id := t.to_account_id
    date := t.date.toStr
    time := some t.time
    description := t.description
    payment_method := t.payment_method
    tags := t.tags
    receipt_path := t.receipt_path }

/-- The "revert old balance changes" block shared by
`Database.update_transaction` (and, with the signs as written there,
`Database.delete_transaction`): only Expense/Income with a truthy
`account_id` are reverted. -/
def revertBalance (db : DB) (o : TxnRow) : DB :=
  if (o.transaction_type == "Expense") && truthyId o.account_id then
    update_account_balance db (o.account_id.getD 0) o.amount
  else if (o.transaction_type == "Income") && truthyId o.account_id then
    update_account_balance db (o.account_id.getD 0) (-o.amount)
  else db

/-- The "apply new balance changes" block of `Database.update_transaction`:
only Expense/Income with a truthy `account_id` are applied. -/
def applyNewBalance (db : DB) (t : Transaction) : DB :=
  if (t.transaction_type == "Expense") && truthyId t.account_id then
    update_account_balance db (t.account_id.getD 0) (-t.amount)
  else if (t.transaction_type == "Income") && truthyId t.account_id then
    update_account_balance db (t.account_id.getD 0) t.amount
  else db

/-- `Database.update_transaction`: fetch the old row, revert its
Expense/Income effect if it exists, overwrite the row's columns, then apply
the new Expense/Income effect (Transfers are neither reverted nor applied;
a missing row is not an error, and the new effect is applied regardless). -/
def update_transaction (db : DB) (t : Transaction) : DB :=
  let old := get_transaction_by_id db t.id
  let db1 := match old with
    | some o => revertBalance db o
    | none => db
  let db2 : DB := { db1 with
    transactions := db1.transactions.map (fun r => if some r.id == t.id then setFields t r else r) }
  applyNewBalance db2 t

/-- `Database.delete_transaction`: revert the Expense/Income effect of the
stored row if present, then delete the row. -/
def delete_transaction (db : DB) (transaction_id : Nat) : DB :=
  let old := db.transactions.find? (fun r => r.id == transaction_id)
  let db1 := match old with
    | some o => revertBalance db o
    | none => db
  { db1 with transactions := db1.transactions.filter (fun r => r.id != transaction_id) }

/-- `SUM(amount)` over a list of rows as SQL computes it: `NULL` (`none`)
when no row matches. -/
def sqlSum (l : List ℚ) : Option ℚ :=
  match l with
  | [] => none
  | _ => some l.sum

/-- `Database.update_budget_spent`: recompute `spent` as the sum of Expense
transaction amounts of the category inside the inclusive date range
(`result if result else 0.0` collapses SQL NULL — and a falsy 0.0 — to 0),
then overwrite every budget row of that category. -/
def update_budget_spent (db : DB) (category_id : Nat) (period_start period_end : String) : DB :=
  let result := sqlSum ((db.transactions.filter (fun t =>
    t.category_id == some category_id && t.transaction_type == "Expense" &&
    strLe period_start t.date && strLe t.date period_end)).map (·.amount))
  let spent : ℚ := match result with
    | none => 0
    | some s => if s = 0 then 0 else s
  { db with budgets := db.budgets.map (fun b =>
      if b.category_id == some category_id then { b with spent := spent } else b) }

/-- `Database.get_income_vs_expense`: one SQL row of two CASE-sums over the
inclusive date range; Python maps falsy (`NULL` or 0) sums to 0. -/
def get_income_vs_expense (db : DB) (start_date end_date : String) : ℚ × ℚ :=
  let rows := db.transactions.filter (fun t => strLe start_date t.date && strLe t.date end_date)
  let income := sqlSum (rows.map (fun t => if t.transaction_type == "Income" then t.amount else 0))
  let expense := sqlSum (rows.map (fun t => if t.transaction_type == "Expense" then t.amount else 0))
  (match income with
   | none => 0
   | some s => if s = 0 then 0 else s,
   match expense with
   | none => 0
   | some s => if s = 0 then 0 else s)

/-! ## Remaining entity value objects (src/models) -/

/-- `models.budget.Budget`. -/
structure Budget where
  id : Option Nat
  category_id : Option Nat
  amount : ℚ
  period : String
  start_date : Option String
  end_date : Option String
  alert_percentage : ℚ
  spent : ℚ
deriving DecidableEq, Repr

/-- `models.category.Category`. -/
structure Category where
  id : Option Nat
  name : String
  category_type : String
  icon : String
  color : String
deriving DecidableEq, Repr

/-- `models.category.Subcategory`. -/
structure Subcategory where
  id : Option Nat
  name : String
  category_id : Option Nat
deriving DecidableEq, Repr

/-- `models.goal.Goal`. -/
structure Goal where
  id : Option Nat
  name : String
  target_amount : ℚ
  current_amount : ℚ
  deadline : Option String
  icon : String
  color : String
  notes : String
  completed : Bool
deriving DecidableEq, Repr

/-- `models.debt.Debt`. -/
structure Debt where
  id : Option Nat
  debt_type : String
  person_name : String
  amount : ℚ
  amount_paid : ℚ
  date : Option String
  due_date : Option String
  interest_rate : ℚ
  notes : String
  settled : Bool
deriving DecidableEq, Repr

/-! ## Calendar arithmetic (Python `datetime` + `timedelta(days=n)`) -/

/-- Gregorian leap-year test. -/
def isLeapYear (y : Nat) : Bool :=
  (y % 4 == 0 && y % 100 != 0) || y % 400 == 0

/-- Days in a calendar month. -/
def daysInMonth (y m : Nat) : Nat :=
  if m == 2 then (if isLeapYear y then 29 else 28)
  else if m == 4 || m == 6 || m == 9 || m == 11 then 30
  else 31

/-- Day number of a proleptic Gregorian date (days since 0000-03-01), the
calendar `datetime` uses. -/
def daysFromCivil (y m d : Nat) : Nat :=
  let yShift := if m ≤ 2 then y - 1 else y
  let era := yShift / 400
  let yoe := yShift % 400
  let mp := if 2 < m then m - 3 else m + 9
  let doy := (153 * mp + 2) / 5 + d - 1
  let doe := yoe * 365 + yoe / 4 - yoe / 100 + doy
  era * 146097 + doe

/-- Inverse of `daysFromCivil`: the proleptic Gregorian date of a day
number. -/
def civilFromDays (z : Nat) : Nat × Nat × Nat :=
  let era := z / 146097
  let doe := z % 146097
  let yoe := (doe - doe / 1460 + doe / 36524 - doe / 146096) / 365
  let y := yoe + era * 400
  let doy := doe - (365 * yoe + yoe / 4 - yoe / 100)
  let mp := (5 * doy + 2) / 153
  let d := doy - (153 * mp + 2) / 5 + 1
  let m := if mp < 10 then mp + 3 else mp - 9
  (if m ≤ 2 then y + 1 else y, m, d)

/-- `date + timedelta(days=n)` (time of day is unchanged, as
`timedelta(days=n)` leaves it). -/
def addDays (d : PyDateTime) (n : Nat) : PyDateTime :=
  let c := civilFromDays (daysFromCivil d.year d.month d.day + n)
  { year := c.1, month := c.2.1, day := c.2.2, tod := d.tod }

/-- Numeric value of a decimal digit character, if it is one. -/
def digitVal (c : Char) : Option Nat :=
  if c.isDigit then some (c.toNat - '0'.toNat) else none

/-- Parse a non-empty all-digit character group into a natural number. -/
def parseDigits : List Char → Option Nat
  | [] => none
  | cs => cs.foldl (fun acc c => match acc, digitVal c with
      | some n, some v => some (n * 10 + v)
      | _, _ => none) (some 0)

/-- Split a character list into the groups separated by `-`. -/
def splitDash : List Char → List (List Char)
  | [] => [[]]
  | c :: rest =>
    if c = '-' then [] :: splitDash rest
    else match splitDash rest with
      | g :: gs => (c :: g) :: gs
      | [] => [[c]]

/-- `datetime.strptime(s, "%Y-%m-%d")`: a 4-digit year, 1-2 digit month and
day, validated as a real calendar date (year at least 1, month 1-12, day
within the month); failure models the `ValueError` it raises.  The
resulting `datetime` is at midnight. -/
def strptimeYMD (s : String) : Option PyDateTime :=
  match splitDash s.toList with
  | [ys, ms, ds] =>
    if ys.length = 4 && (1 ≤ ms.length && ms.length ≤ 2) && (1 ≤ ds.length && ds.length ≤ 2) then
      match parseDigits ys, parseDigits ms, parseDigits ds with
      | some y, some m, some d =>
        if (1 ≤ y && y ≤ 9999) && (1 ≤ m && m ≤ 12) && (1 ≤ d && d ≤ daysInMonth y m) then
          some ⟨y, m, d, 0⟩
        else none
      | _, _, _ => none
    else none
  | _ => none

/-! ## Reminder engine (src/utils/reminders.py) -/

/-- `ReminderManager.calculate_next_due_date`: parse the cursor date, add
the frequency-dependent flat day count, format the result. -/
def calculate_next_due_date (current_date frequency : String) (interval : Nat) : Option String :=
  (strptimeYMD current_date).map (fun date =>
    let next :=
      if frequency == "Daily" then addDays date interval
      else if frequency == "Weekly" then addDays date (7 * interval)
      else if frequency == "Monthly" then addDays date (30 * interval)
      else if frequency == "Yearly" then addDays date (365 * interval)
      else addDays date interval
    next.strftimeYMD)

/-- `ORDER BY next_due_date` comparison: SQLite sorts `NULL` first
ascending. -/
def dueKeyLe (a b : Option String) : Bool :=
  match a, b with
  | none, _ => true
  | some _, none => false
  | some x, some y => strLe x y

/-- Insert a row into a list sorted by `next_due_date`. -/
def insertByDue (r : RecurringRow) : List RecurringRow → List RecurringRow
  | [] => [r]
  | x :: xs =>
    if dueKeyLe r.next_due_date x.next_due_date then r :: x :: xs
    else x :: insertByDue r xs

/-- Insertion sort by `next_due_date`. -/
def sortByDue : List RecurringRow → List RecurringRow
  | [] => []
  | x :: xs => insertByDue x (sortByDue xs)

/-- `Database.get_recurring_transactions`: active rows ordered by
`next_due_date`. -/
def get_recurring_transactions (db : DB) : List RecurringRow :=
  sortByDue (db.recurring_transactions.filter (·.active))

/-- `ReminderManager.check_recurring_transactions` with the `today` string
(`datetime.now().strftime("%Y-%m-%d")`) made explicit: a row is due when
its `next_due_date` is truthy and `<= today`, and `active` and
`auto_create` are truthy. -/
def check_recurring_transactions (db : DB) (today : String) : List RecurringRow :=
  (get_recurring_transactions db).filter (fun r =>
    (truthyStr r.next_due_date && strLe (r.next_due_date.getD "") today) &&
    (r.active && r.auto_create))

/-- The `Transaction(...)` value built for a due pattern inside
`create_recurring_transaction_instances` (constructor defaults applied:
`to_account_id = None`, `date = datetime.now()`, `time` defaulted to the
current clock). -/
def instanceOf (r : RecurringRow) (now : PyDateTime) (nowTime : String) : Transaction :=
  { id := none
    transaction_type := r.transaction_type
    amount := r.amount
    category_id := r.category_id
    subcategory_id := r.subcategory_id
    account_id := r.account_id
    to_account_id := none
    date := PyDate.dt now
    time := nowTime
    description := r.description
    payment_method := ""
    tags := ""
    receipt_path := none
    recurring_id := some r.id }

/-- `UPDATE recurring_transactions SET next_due_date=? WHERE id=?`. -/
def set_next_due (db : DB) (rid : Nat) (nd : String) : DB :=
  { db with recurring_transactions := db.recurring_transactions.map (fun r =>
      if r.id = rid then { r with next_due_date := some nd } else r) }

/-- The loop body of `create_recurring_transaction_instances`: insert the
instance, recompute the cursor, persist it, count.  A `strptime` failure
raises after the insert committed: the flag records whether the loop ran to
completion, and on failure the partially committed state is returned. -/
def createLoop (now : PyDateTime) (nowTime : String) :
    List RecurringRow → DB → Nat → DB × Nat × Bool
  | [], db, n => (db, n, true)
  | r :: rs, db, n =>
    let db1 := (add_transaction db (instanceOf r now nowTime)).1
    match calculate_next_due_date (r.next_due_date.getD "") r.frequency r.custom_interval with
    | some nd => createLoop now nowTime rs (set_next_due db1 r.id nd) (n + 1)
    | none => (db1, n, false)

/-- `ReminderManager.create_recurring_transaction_instances`, with the
clock (`datetime.now()`) made explicit. -/
def create_recurring_transaction_instances (db : DB) (now : PyDateTime) (nowTime : String) :
    DB × Nat × Bool :=
  createLoop now nowTime (check_recurring_transactions db now.strftimeYMD) db 0

/-- The `category_name` a budget row gets from the LEFT JOIN in
`Database.get_budgets` (`None` when the category is absent). -/
def budgetCategoryName (db : DB) (b : BudgetRow) : Option String :=
  (db.categories.find? (fun c => some c.id == b.category_id)).map (·.name)

/-- A budget row as returned by `Database.get_budgets` (the joined
category columns used by the alert engine). -/
structure JoinedBudget where
  row : BudgetRow
  category_name : Option String
deriving DecidableEq, Repr

/-- `Database.get_budgets` (ordered by id; the store list is kept in
insertion = id order). -/
def get_budgets (db : DB) : List JoinedBudget :=
  db.budgets.map (fun b => { row := b, category_name := budgetCategoryName db b })

/-- An element of the list built by `ReminderManager.check_budget_alerts`. -/
structure BudgetAlert where
  type : String
  category : Option String
  percentage : ℚ
  spent : ℚ
  amount : ℚ
  severity : String
deriving DecidableEq, Repr

/-- `ReminderManager.check_budget_alerts`: for every budget compute the
consumed percentage (0 when the ceiling is not positive) and emit an alert
when it reaches the threshold. -/
def check_budget_alerts (db : DB) : List BudgetAlert :=
  (get_budgets db).foldl (fun alerts b =>
    let percentage : ℚ := if b.row.amount > 0 then b.row.spent / b.row.amount * 100 else 0
    if percentage ≥ b.row.alert_percentage then
      alerts ++ [{ type := "budget_alert"
                   category := b.category_name
                   percentage := percentage
                   spent := b.row.spent
                   amount := b.row.amount
                   severity := if percentage ≥ 100 then "high" else "medium" }]
    else alerts) []

/-! ## Serialization (`to_dict` / `from_dict` of src/models)

Each `to_dict` produces a mapping with a fixed key set; the mapping is
embedded as a typed record holding exactly the values `to_dict` stores
under those keys (so every `data.get(key, default)` in `from_dict` finds
its key and the defaults never fire). -/

/-- The mapping produced by `Transaction.to_dict` (the `date` value is
always a string: a `datetime` is rendered with `strftime("%Y-%m-%d")` and
a string is passed through). -/
structure TransactionDict where
  id : Option Nat
  transaction_type : String
  amount : ℚ
  category_id : Option Nat
  subcategory_id : Option Nat
  account_id : Option Nat
  to_account_id : Option Nat
  date : String
  time : String
  description : String
  payment_method : String
  tags : String
  receipt_path : Option String
  recurring_id : Option Nat
deriving DecidableEq, Repr

/-- `Transaction.to_dict`. -/
def Transaction.to_dict (t : Transaction) : TransactionDict :=
  { id := t.id
    transaction_type := t.transaction_type
    amount := t.amount
    category_id := t.category_id
    subcategory_id := t.subcategory_id
    account_id := t.account_id
    to_account_id := t.to_account_id
    date := t.date.toStr
    time := t.time
    description := t.description
    payment_method := t.payment_method
    tags := t.tags
    receipt_path := t.receipt_path
    recurring_id := t.recurring_id }

/-- `Transaction.from_dict` followed by `Transaction.__init__`: the date
string is parsed back with `strptime` (a `ValueError` is `none`), and the
constructor replaces a falsy `time` with the current clock (the parsed
`datetime` is always truthy, so its `or` default can never fire). -/
def Transaction.from_dict (d : TransactionDict) (nowTime : String) :
    Option Transaction :=
  match strptimeYMD d.date with
  | none => none
  | some dt => some
    { id := d.id
      transaction_type := d.transaction_type
      amount := d.amount
      category_id := d.category_id
      subcategory_id := d.subcategory_id
      account_id := d.account_id
      to_account_id := d.to_account_id
      date := PyDate.dt dt
      time := if d.time = "" then nowTime else d.time
      description := d.description
      payment_method := d.payment_method
      tags := d.tags
      receipt_path := d.receipt_path
      recurring_id := d.recurring_id }

/-- The mapping produced by `Account.to_dict`. -/
structure AccountDict where
  id : Option Nat
  name : String
  account_type : String
  initial_balance : ℚ
  current_balance : ℚ
  currency : String
  icon : String
  color : String
  is_credit_card : Bool
  credit_limit : ℚ
  due_date : Option String
  interest_rate : ℚ
  notes : String
deriving DecidableEq, Repr

/-- `Account.to_dict` (plain field copies). -/
def Account.to_dict (a : Account) : AccountDict :=
  { id := a.id, name := a.name, account_type := a.account_type
    initial_balance := a.initial_balance, current_balance := a.current_balance
    currency := a.currency, icon := a.icon, color := a.color
    is_credit_card := a.is_credit_card, credit_limit := a.credit_limit
    due_date := a.due_date, interest_rate := a.interest_rate, notes := a.notes }

/-- `Account.from_dict` (plain field copies; `__init__` stores verbatim). -/
def Account.from_dict (d : AccountDict) : Account :=
  { id := d.id, name := d.name, account_type := d.account_type
    initial_balance := d.initial_balance, current_balance := d.current_balance
    currency := d.currency, icon := d.icon, color := d.color
    is_credit_card := d.is_credit_card, credit_limit := d.credit_limit
    due_date := d.due_date, interest_rate := d.interest_rate, notes := d.notes }

/-- The mapping produced by `RecurringTransaction.to_dict`. -/
structure RecurringTransactionDict where
  id : Option Nat
  transaction_type : String
  amount : ℚ
  category_id : Option Nat
  subcategory_id : Option Nat
  account_id : Option Nat
  description : String
  frequency : String
  custom_interval : Nat
  start_date : Option String
  end_date : Option String
  next_due_date : Option String
  auto_create : Bool
  active : Bool
deriving DecidableEq, Repr

/-- `RecurringTransaction.to_dict`. -/
def RecurringTransaction.to_dict (r : RecurringTransaction) : RecurringTransactionDict :=
  { id := r.id, transaction_type := r.transaction_type, amount := r.amount
    category_id := r.category_id, subcategory_id := r.subcategory_id
    account_id := r.account_id, description := r.description
    frequency := r.frequency, custom_interval := r.custom_interval
    start_date := r.start_date, end_date := r.end_date
    next_due_date := r.next_due_date, auto_create := r.auto_create, active := r.active }

/-- `RecurringTransaction.from_dict`. -/
def RecurringTransaction.from_dict (d : RecurringTransactionDict) : RecurringTransaction :=
  { id := d.id, transaction_type := d.transaction_type, amount := d.amount
    category_id := d.category_id, subcategory_id := d.subcategory_id
    account_id := d.account_id, description := d.description
    frequency := d.frequency, custom_interval := d.custom_interval
    start_date := d.start_date, end_date := d.end_date
    next_due_date := d.next_due_date, auto_create := d.auto_create, active := d.active }

/-- The mapping produced by `Budget.to_dict`. -/
structure BudgetDict where
  id : Option Nat
  category_id : Option Nat
  amount : ℚ
  period : String
  start_date : Option String
  end_date : Option String
  alert_percentage : ℚ
  spent : ℚ
deriving DecidableEq, Repr

/-- `Budget.to_dict`. -/
def Budget.to_dict (b : Budget) : BudgetDict :=
  { id := b.id, category_id := b.category_id, amount := b.amount, period := b.period
    start_date := b.start_date, end_date := b.end_date
    alert_percentage := b.alert_percentage, spent := b.spent }

/-- `Budget.from_dict`. -/
def Budget.from_dict (d : BudgetDict) : Budget :=
  { id := d.id, category_id := d.category_id, amount := d.amount, period := d.period
    start_date := d.start_date, end_date := d.end_date
    alert_percentage := d.alert_percentage, spent := d.spent }

/-- The mapping produced by `Category.to_dict`. -/
structure CategoryDict where
  id : Option Nat
  name : String
  category_type : String
  icon : String
  color : String
deriving DecidableEq, Repr

/-- `Category.to_dict`. -/
def Category.to_dict (c : Category) : CategoryDict :=
  { id := c.id, name := c.name, category_type := c.category_type
    icon := c.icon, color := c.color }

/-- `Category.from_dict`. -/
def Category.from_dict (d : CategoryDict) : Category :=
  { id := d.id, name := d.name, category_type := d.category_type
    icon := d.icon, color := d.color }

/-- The mapping produced by `Subcategory.to_dict`. -/
structure SubcategoryDict where
  id : Option Nat
  name : String
  category_id : Option Nat
deriving DecidableEq, Repr

/-- `Subcategory.to_dict`. -/
def Subcategory.to_dict (s : Subcategory) : SubcategoryDict :=
  { id := s.id, name := s.name, category_id := s.category_id }

/-- `Subcategory.from_dict`. -/
def Subcategory.from_dict (d : SubcategoryDict) : Subcategory :=
  { id := d.id, name := d.name, category_id := d.category_id }

/-- The mapping produced by `Goal.to_dict`. -/
structure GoalDict where
  id : Option Nat
  name : String
  target_amount : ℚ
  current_amount : ℚ
  deadline : Option String
  icon : String
  color : String
  notes : String
  completed : Bool
deriving DecidableEq, Repr

/-- `Goal.to_dict`. -/
def Goal.to_dict (g : Goal) : GoalDict :=
  { id := g.id, name := g.name, target_amount := g.target_amount
    current_amount := g.current_amount, deadline := g.deadline
    icon := g.icon, color := g.color, notes := g.notes, completed := g.completed }

/-- `Goal.from_dict`. -/
def Goal.from_dict (d : GoalDict) : Goal :=
  { id := d.id, name := d.name, target_amount := d.target_amount
    current_amount := d.current_amount, deadline := d.deadline
    icon := d.icon, color := d.color, notes := d.notes, completed := d.completed }

/-- The mapping produced by `Debt.to_dict`. -/
structure DebtDict where
  id : Option Nat
  debt_type : String
  person_name : String
  amount : ℚ
  amount_paid : ℚ
  date : Option String
  due_date : Option String
  interest_rate : ℚ
  notes : String
  settled : Bool
deriving DecidableEq, Repr

/-- `Debt.to_dict`. -/
def Debt.to_dict (d : Debt) : DebtDict :=
  { id := d.id, debt_type := d.debt_type, person_name := d.person_name
    amount := d.amount, amount_paid := d.amount_paid, date := d.date
    due_date := d.due_date, interest_rate := d.interest_rate
    notes := d.notes, settled := d.settled }

/-- `Debt.from_dict`. -/
def Debt.from_dict (d : DebtDict) : Debt :=
  { id := d.id, debt_type := d.debt_type, person_name := d.person_name
    amount := d.amount, amount_paid := d.amount_paid, date := d.date
    due_date := d.due_date, interest_rate := d.interest_rate
    notes := d.notes, settled := d.settled }

/-! ## The balance invariant (claim C1) -/

/-- The signed balance effect a stored transaction row has on the account
with id `aid` (Expense: −amount, Income: +amount, Transfer: −amount on the
source and +amount on the destination; anything else: none). -/
def signedEffect (t : TxnRow) (aid : Nat) : ℚ :=
  if t.transaction_type = "Expense" then (if t.account_id = some aid then -t.amount else 0)
  else if t.transaction_type = "Income" then (if t.account_id = some aid then t.amount else 0)
  else if t.transaction_type = "Transfer" then
    (if t.account_id = some aid then -t.amount else 0) +
    (if t.to_account_id = some aid then t.amount else 0)
  else 0

/-- Sum of the signed effects of a transaction list on one account. -/
def effectSum (ts : List TxnRow) (aid : Nat) : ℚ :=
  (ts.map (fun t => signedEffect t aid)).sum

/-- One account satisfies the balance equation against a transaction
list. -/
def accBal (ts : List TxnRow) (a : AccountRow) : Prop :=
  a.current_balance = a.initial_balance + effectSum ts a.id

/-- The balance invariant of the claim: every stored account's
`current_balance` is its `initial_balance` plus the summed signed effects
of the stored transactions that reference it. -/
def Balanced (db : DB) : Prop :=
  ∀ a ∈ db.accounts, accBal db.transactions a

/-- Store well-formedness guaranteed by the schema: account ids are
nonzero (autoincrement keys start at 1), transaction ids are distinct and
below the autoincrement cursor. -/
def WFdb (db : DB) : Prop :=
  (∀ a ∈ db.accounts, a.id ≠ 0) ∧
  (db.transactions.map (·.id)).Nodup ∧
  (∀ t ∈ db.transactions, t.id < db.next_transaction_id)

/-- One store operation of the sequences the claim quantifies over. -/
inductive Op where
  | addT (t : Transaction)
  | updT (t : Transaction)
  | delT (i : Nat)

/-- Run one operation. -/
def applyOp (db : DB) : Op → DB
  | .addT t => (add_transaction db t).1
  | .updT t => update_transaction db t
  | .delT i => delete_transaction db i

/-- Run a sequence of operations. -/
def applyOps (db : DB) : List Op → DB
  | [] => db
  | op :: ops => applyOps (applyOp db op) ops

/-- The side conditions of the amended claim: updates must target an
existing non-Transfer row and must not write a Transfer; deletes must not
target a Transfer (the code reverses no Transfer effect on update or
delete). -/
def OpOk (db : DB) : Op → Prop
  | .addT _ => True
  | .updT t => t.transaction_type ≠ "Transfer" ∧
      ∃ o, get_transaction_by_id db t.id = some o ∧ o.transaction_type ≠ "Transfer"
  | .delT i => ∀ o, db.transactions.find? (fun r => r.id == i) = some o →
      o.transaction_type ≠ "Transfer"

/-- Every operation of the sequence is admissible in the state where it
runs. -/
def SeqOk (db : DB) : List Op → Prop
  | [] => True
  | op :: ops => OpOk db op ∧ SeqOk (applyOp db op) ops

/-! ## Helper lemmas -/

theorem truthyId_true_iff {x : Option Nat} :
    truthyId x = true ↔ ∃ k, x = some k ∧ k ≠ 0 := by
  cases x with
  | none => simp [truthyId]
  | some n => simp [truthyId]

theorem truthyId_false_ne {x : Option Nat} {aid : Nat} (haid : aid ≠ 0)
    (h : truthyId x = false) : x ≠ some aid := by
  cases x with
  | none => simp
  | some n =>
    simp [truthyId] at h
    simp [h]
    exact fun he => haid he.symm

theorem effectSum_nil (aid : Nat) : effectSum [] aid = 0 := rfl

theorem effectSum_append (ts us : List TxnRow) (aid : Nat) :
    effectSum (ts ++ us) aid = effectSum ts aid + effectSum us aid := by
  simp [effectSum]

theorem effectSum_cons (t : TxnRow) (ts : List TxnRow) (aid : Nat) :
    effectSum (t :: ts) aid = signedEffect t aid + effectSum ts aid := by
  simp [effectSum]

/-- Replacing the unique row with id `i` shifts the effect sum by the
difference of the row effects. -/
theorem effectSum_map_replace {T : List TxnRow} {i : Nat} {o : TxnRow} (g : TxnRow → TxnRow)
    (hnodup : (T.map (·.id)).Nodup)
    (hfind : T.find? (fun r => r.id == i) = some o) (aid : Nat) :
    effectSum (T.map (fun r => if r.id == i then g r else r)) aid
      = effectSum T aid - signedEffect o aid + signedEffect (g o) aid := by
  induction T with
  | nil => simp at hfind
  | cons x xs ih =>
    simp only [List.map_cons, List.nodup_cons] at hnodup
    cases hx : (x.id == i) with
    | true =>
      rw [List.find?_cons_of_pos (p := fun r => r.id == i) xs hx] at hfind
      injection hfind with ho
      subst ho
      have hxs : xs.map (fun r => if r.id == i then g r else r) = xs := by
        have h1 : xs.map (fun r => if r.id == i then g r else r) = xs.map id := by
          apply List.map_congr_left
          intro r hr
          have hne : r.id ≠ x.id := by
            intro he
            exact hnodup.1 (he ▸ List.mem_map_of_mem (·.id) hr)
          have hri : (r.id == i) = false := by
            simp only [beq_iff_eq] at hx
            rw [beq_eq_false_iff_ne]
            omega
          simp [hri]
        rw [h1, List.map_id]
      simp only [List.map_cons, hx, if_true, effectSum_cons, hxs]
      ring
    | false =>
      rw [List.find?_cons_of_neg (p := fun r => r.id == i) xs (by simp [hx])] at hfind
      simp only [List.map_cons, effectSum_cons]
      rw [ih hnodup.2 hfind, if_neg (by simp [hx])]
      ring

/-- Deleting the unique row with id `i` removes exactly its effect. -/
theorem effectSum_filter_out {T : List TxnRow} {i : Nat} {o : TxnRow}
    (hnodup : (T.map (·.id)).Nodup)
    (hfind : T.find? (fun r => r.id == i) = some o) (aid : Nat) :
    effectSum (T.filter (fun r => r.id != i)) aid
      = effectSum T aid - signedEffect o aid := by
  induction T with
  | nil => simp at hfind
  | cons x xs ih =>
    simp only [List.map_cons, List.nodup_cons] at hnodup
    cases hx : (x.id == i) with
    | true =>
      rw [List.find?_cons_of_pos (p := fun r => r.id == i) xs hx] at hfind
      injection hfind with ho
      subst ho
      have hxs : xs.filter (fun r => r.id != i) = xs := by
        apply List.filter_eq_self.2
        intro r hr
        have hne : r.id ≠ x.id := by
          intro he
          exact hnodup.1 (he ▸ List.mem_map_of_mem (·.id) hr)
        simp only [beq_iff_eq] at hx
        rw [bne_iff_ne]
        simp only [ne_eq]
        omega
      have hxf : (x.id != i) = false := by
        simp only [beq_iff_eq] at hx
        simp [bne_iff_ne, hx]
      simp [List.filter_cons, hxf, effectSum_cons, hxs]
      try ring
    | false =>
      rw [List.find?_cons_of_neg (p := fun r => r.id == i) xs (by simp [hx])] at hfind
      have hxne : (x.id != i) = true := by
        rw [bne_iff_ne]
        simpa using hx
      simp [List.filter_cons, hxne, effectSum_cons, ih hnodup.2 hfind]
      try ring

/-- No matching row: the delete's filter removes nothing. -/
theorem filter_out_of_find_none {T : List TxnRow} {i : Nat}
    (hfind : T.find? (fun r => r.id == i) = none) :
    T.filter (fun r => r.id != i) = T := by
  apply List.filter_eq_self.2
  intro r hr
  have := List.find?_eq_none.1 hfind r hr
  simpa [bne_iff_ne] using this

theorem band_parts {a b : Bool} (h : (a && b) = true) : a = true ∧ b = true := by
  simpa using h

theorem effectSum_single (t : TxnRow) (aid : Nat) :
    effectSum [t] aid = signedEffect t aid := by
  simp [effectSum]

theorem applyDelta_id (k : Nat) (δ : ℚ) (a : AccountRow) : (applyDelta k δ a).id = a.id := by
  unfold applyDelta
  split <;> rfl

theorem applyDelta_initial (k : Nat) (δ : ℚ) (a : AccountRow) :
    (applyDelta k δ a).initial_balance = a.initial_balance := by
  unfold applyDelta
  split <;> rfl

theorem applyDelta_current (k : Nat) (δ : ℚ) (a : AccountRow) :
    (applyDelta k δ a).current_balance = a.current_balance + (if a.id = k then δ else 0) := by
  unfold applyDelta
  split <;> simp_all

/-- The per-row account transformation performed by the revert block. -/
def revFn (o : TxnRow) (a : AccountRow) : AccountRow :=
  if (o.transaction_type == "Expense") && truthyId o.account_id then
    applyDelta (o.account_id.getD 0) o.amount a
  else if (o.transaction_type == "Income") && truthyId o.account_id then
    applyDelta (o.account_id.getD 0) (-o.amount) a
  else a

/-- The per-row account transformation performed by the apply-new block. -/
def appFn (t : Transaction) (a : AccountRow) : AccountRow :=
  if (t.transaction_type == "Expense") && truthyId t.account_id then
    applyDelta (t.account_id.getD 0) (-t.amount) a
  else if (t.transaction_type == "Income") && truthyId t.account_id then
    applyDelta (t.account_id.getD 0) t.amount a
  else a

theorem revertBalance_accounts (db : DB) (o : TxnRow) :
    (revertBalance db o).accounts = db.accounts.map (revFn o) := by
  unfold revertBalance revFn
  split
  · rfl
  · split
    · rfl
    · exact (List.map_id db.accounts).symm

theorem revertBalance_transactions (db : DB) (o : TxnRow) :
    (revertBalance db o).transactions = db.transactions := by
  unfold revertBalance
  split
  · rfl
  · split <;> rfl

theorem revertBalance_nextid (db : DB) (o : TxnRow) :
    (revertBalance db o).next_transaction_id = db.next_transaction_id := by
  unfold revertBalance
  split
  · rfl
  · split <;> rfl

theorem applyNewBalance_accounts (db : DB) (t : Transaction) :
    (applyNewBalance db t).accounts = db.accounts.map (appFn t) := by
  unfold applyNewBalance appFn
  split
  · rfl
  · split
    · rfl
    · exact (List.map_id db.accounts).symm

theorem applyNewBalance_transactions (db : DB) (t : Transaction) :
    (applyNewBalance db t).transactions = db.transactions := by
  unfold applyNewBalance
  split
  · rfl
  · split <;> rfl

theorem applyNewBalance_nextid (db : DB) (t : Transaction) :
    (applyNewBalance db t).next_transaction_id = db.next_transaction_id := by
  unfold applyNewBalance
  split
  · rfl
  · split <;> rfl

theorem revFn_id (o : TxnRow) (a : AccountRow) : (revFn o a).id = a.id := by
  unfold revFn
  split
  · exact applyDelta_id _ _ _
  · split
    · exact applyDelta_id _ _ _
    · rfl

theorem revFn_initial (o : TxnRow) (a : AccountRow) :
    (revFn o a).initial_balance = a.initial_balance := by
  unfold revFn
  split
  · exact applyDelta_initial _ _ _
  · split
    · exact applyDelta_initial _ _ _
    · rfl

theorem appFn_id (t : Transaction) (a : AccountRow) : (appFn t a).id = a.id := by
  unfold appFn
  split
  · exact applyDelta_id _ _ _
  · split
    · exact applyDelta_id _ _ _
    · rfl

theorem appFn_initial (t : Transaction) (a : AccountRow) :
    (appFn t a).initial_balance = a.initial_balance := by
  unfold appFn
  split
  · exact applyDelta_initial _ _ _
  · split
    · exact applyDelta_initial _ _ _
    · rfl

/-- A row whose Expense/Income effect the revert block does not touch has
no signed effect on any nonzero account id (given it is not a Transfer). -/
theorem signedEffect_zero_of_untouched (o : TxnRow) {aid : Nat} (haid : aid ≠ 0)
    (hoT : o.transaction_type ≠ "Transfer")
    (hE : ¬((o.transaction_type == "Expense") && truthyId o.account_id = true))
    (hI : ¬((o.transaction_type == "Income") && truthyId o.account_id = true)) :
    signedEffect o aid = 0 := by
  unfold signedEffect
  by_cases hoE : o.transaction_type = "Expense"
  · have hta : truthyId o.account_id = false := by
      cases hta : truthyId o.account_id
      · rfl
      · exact absurd (by simp [hoE, hta]) hE
    have := truthyId_false_ne haid hta
    simp [hoE, this]
  · by_cases hoI : o.transaction_type = "Income"
    · have hta : truthyId o.account_id = false := by
        cases hta : truthyId o.account_id
        · rfl
        · exact absurd (by simp [hoI, hta]) hI
      have := truthyId_false_ne haid hta
      simp [hoE, hoI, this]
    · simp [hoE, hoI, hoT]

/-- The revert block subtracts exactly the stored row's signed effect
(for non-Transfer rows, on accounts with nonzero id). -/
theorem revFn_current (o : TxnRow) (a : AccountRow) (haid : a.id ≠ 0)
    (hoT : o.transaction_type ≠ "Transfer") :
    (revFn o a).current_balance = a.current_balance - signedEffect o a.id := by
  unfold revFn
  cases hE : (o.transaction_type == "Expense") && truthyId o.account_id with
  | true =>
    simp only [if_true, hE]
    rw [applyDelta_current]
    have h1 : o.transaction_type = "Expense" := by
      simpa using (band_parts hE).1
    obtain ⟨k, hk, hk0⟩ := truthyId_true_iff.1 (band_parts hE).2
    unfold signedEffect
    rw [hk]
    simp only [h1, if_true, Option.getD_some]
    by_cases hak : a.id = k
    · simp [hak]
    · have : ¬(some k = some a.id) := by
        simp
        omega
      simp [hak, this]
  | false =>
    cases hI : (o.transaction_type == "Income") && truthyId o.account_id with
    | true =>
      simp only [hE, hI, if_true, if_false, Bool.false_eq_true]
      rw [applyDelta_current]
      have h1 : o.transaction_type = "Income" := by
        simpa using (band_parts hI).1
      obtain ⟨k, hk, hk0⟩ := truthyId_true_iff.1 (band_parts hI).2
      unfold signedEffect
      rw [hk]
      simp only [h1, if_true, Option.getD_some]
      by_cases hak : a.id = k
      · simp [hak, h1, sub_eq_add_neg]
      · have : ¬(some k = some a.id) := by
          simp
          omega
        simp [hak, this, h1]
    | false =>
      simp only [hE, hI, if_false, Bool.false_eq_true]
      rw [signedEffect_zero_of_untouched o haid hoT (by simp [hE]) (by simp [hI])]
      ring

/-- The apply-new block adds exactly the signed effect of the rewritten
row (for non-Transfer updates, on accounts with nonzero id). -/
theorem appFn_current (t : Transaction) (r : TxnRow) (a : AccountRow) (haid : a.id ≠ 0)
    (htT : t.transaction_type ≠ "Transfer") :
    (appFn t a).current_balance = a.current_balance + signedEffect (setFields t r) a.id := by
  unfold appFn
  cases hE : (t.transaction_type == "Expense") && truthyId t.account_id with
  | true =>
    simp only [if_true, hE]
    rw [applyDelta_current]
    have h1 : t.transaction_type = "Expense" := by
      simpa using (band_parts hE).1
    obtain ⟨k, hk, hk0⟩ := truthyId_true_iff.1 (band_parts hE).2
    unfold signedEffect
    simp only [setFields, hk, h1, if_true, Option.getD_some]
    by_cases hak : a.id = k
    · simp [hak]
    · have : ¬(some k = some a.id) := by
        simp
        omega
      simp [hak, this]
  | false =>
    cases hI : (t.transaction_type == "Income") && truthyId t.account_id with
    | true =>
      simp only [hE, hI, if_true, if_false, Bool.false_eq_true]
      rw [applyDelta_current]
      have h1 : t.transaction_type = "Income" := by
        simpa using (band_parts hI).1
      obtain ⟨k, hk, hk0⟩ := truthyId_true_iff.1 (band_parts hI).2
      unfold signedEffect
      simp only [setFields, hk, h1, if_true, Option.getD_some]
      by_cases hak : a.id = k
      · simp [hak, h1, sub_eq_add_neg]
      · have : ¬(some k = some a.id) := by
          simp
          omega
        simp [hak, this, h1]
    | false =>
      simp only [hE, hI, if_false, Bool.false_eq_true]
      have hset : signedEffect (setFields t r) a.id = 0 := by
        apply signedEffect_zero_of_untouched _ haid
        · simpa [setFields] using htT
        · simpa [setFields] using (by simp [hE] : ¬((t.transaction_type == "Expense") && truthyId t.account_id = true))
        · simpa [setFields] using (by simp [hI] : ¬((t.transaction_type == "Income") && truthyId t.account_id = true))
      rw [hset]
      ring

theorem setFields_id (t : Transaction) (r : TxnRow) : (setFields t r).id = r.id := rfl

theorem insertedRow_id (n : Nat) (t : Transaction) : (insertedRow n t).id = n := rfl

/-- The per-row account transformation performed by `add_transaction`'s
balance block (all three transaction types). -/
def addFn (t : Transaction) (a : AccountRow) : AccountRow :=
  if (t.transaction_type == "Expense") && truthyId t.account_id then
    applyDelta (t.account_id.getD 0) (-t.amount) a
  else if (t.transaction_type == "Income") && truthyId t.account_id then
    applyDelta (t.account_id.getD 0) t.amount a
  else if t.transaction_type == "Transfer" then
    (if truthyId t.to_account_id then applyDelta (t.to_account_id.getD 0) t.amount else id)
      ((if truthyId t.account_id then applyDelta (t.account_id.getD 0) (-t.amount) else id) a)
  else a

theorem add_transaction_transactions (db : DB) (t : Transaction) :
    (add_transaction db t).1.transactions =
      db.transactions ++ [insertedRow db.next_transaction_id t] := by
  unfold add_transaction update_account_balance
  split
  · rfl
  · split
    · rfl
    · split
      · split
        · split <;> rfl
        · split <;> rfl
      · rfl

theorem add_transaction_nextid (db : DB) (t : Transaction) :
    (add_transaction db t).1.next_transaction_id = db.next_transaction_id + 1 := by
  unfold add_transaction update_account_balance
  split
  · rfl
  · split
    · rfl
    · split
      · split
        · split <;> rfl
        · split <;> rfl
      · rfl

theorem add_transaction_accounts (db : DB) (t : Transaction) :
    (add_transaction db t).1.accounts = db.accounts.map (addFn t) := by
  unfold add_transaction addFn update_account_balance
  cases hE : (t.transaction_type == "Expense") && truthyId t.account_id with
  | true => simp [hE]
  | false =>
    cases hI : (t.transaction_type == "Income") && truthyId t.account_id with
    | true => simp [hE, hI]
    | false =>
      cases hT : (t.transaction_type == "Transfer") with
      | true =>
        cases hs : truthyId t.account_id with
        | true =>
          cases hd : truthyId t.to_account_id with
          | true => simp [hE, hI, hT, hs, hd, List.map_map, Function.comp]
          | false => simp [hE, hI, hT, hs, hd]
        | false =>
          cases hd : truthyId t.to_account_id with
          | true => simp [hE, hI, hT, hs, hd]
          | false => simp [hE, hI, hT, hs, hd]
      | false => simp [hE, hI, hT]

theorem addFn_id (t : Transaction) (a : AccountRow) : (addFn t a).id = a.id := by
  unfold addFn
  split
  · exact applyDelta_id _ _ _
  · split
    · exact applyDelta_id _ _ _
    · split
      · split
        · split <;> simp [applyDelta_id]
        · split <;> simp [applyDelta_id]
      · rfl

theorem addFn_initial (t : Transaction) (a : AccountRow) :
    (addFn t a).initial_balance = a.initial_balance := by
  unfold addFn
  split
  · exact applyDelta_initial _ _ _
  · split
    · exact applyDelta_initial _ _ _
    · split
      · split
        · split <;> simp [applyDelta_initial]
        · split <;> simp [applyDelta_initial]
      · rfl

/-- The balance block of `add_transaction` adds exactly the signed effect
of the inserted row, on every account with nonzero id. -/
theorem addFn_current (t : Transaction) (n : Nat) (a : AccountRow) (haid : a.id ≠ 0) :
    (addFn t a).current_balance = a.current_balance + signedEffect (insertedRow n t) a.id := by
  unfold addFn
  cases hE : (t.transaction_type == "Expense") && truthyId t.account_id with
  | true =>
    simp only [hE, if_true]
    rw [applyDelta_current]
    have h1 : t.transaction_type = "Expense" := by
      simpa using (band_parts hE).1
    obtain ⟨k, hk, hk0⟩ := truthyId_true_iff.1 (band_parts hE).2
    unfold signedEffect
    simp only [insertedRow, hk, h1, if_true, Option.getD_some]
    by_cases hak : a.id = k
    · simp [hak]
    · have hne : ¬(some k = some a.id) := by
        simp
        omega
      simp [hak, hne]
  | false =>
    cases hI : (t.transaction_type == "Income") && truthyId t.account_id with
    | true =>
      simp only [hE, hI, if_true, Bool.false_eq_true, if_false]
      rw [applyDelta_current]
      have h1 : t.transaction_type = "Income" := by
        simpa using (band_parts hI).1
      obtain ⟨k, hk, hk0⟩ := truthyId_true_iff.1 (band_parts hI).2
      unfold signedEffect
      simp only [insertedRow, hk, h1, if_true, Option.getD_some]
      by_cases hak : a.id = k
      · simp [hak, h1]
      · have hne : ¬(some k = some a.id) := by
          simp
          omega
        simp [hak, hne, h1]
    | false =>
      cases hT : (t.transaction_type == "Transfer") with
      | true =>
        have h1 : t.transaction_type = "Transfer" := by simpa using hT
        have hEf : t.transaction_type ≠ "Expense" := by simp [h1]
        have hIf : t.transaction_type ≠ "Income" := by simp [h1]
        simp only [hE, hI, hT, if_true, Bool.false_eq_true, if_false]
        unfold signedEffect
        simp only [insertedRow, h1, if_true, hEf, hIf, if_false]
        have hsrc : ((if truthyId t.account_id then applyDelta (t.account_id.getD 0) (-t.amount) else id) a).current_balance
            = a.current_balance + (if t.account_id = some a.id then -t.amount else 0) := by
          cases hs : truthyId t.account_id with
          | true =>
            obtain ⟨k, hk, hk0⟩ := truthyId_true_iff.1 hs
            simp only [if_true, hk, Option.getD_some]
            rw [applyDelta_current]
            by_cases hak : a.id = k
            · simp [hak]
            · have hne : ¬(some k = some a.id) := by
                simp
                omega
              simp [hak, hne]
          | false =>
            have hne := truthyId_false_ne haid hs
            simp [hne]
        have hid : ((if truthyId t.account_id then applyDelta (t.account_id.getD 0) (-t.amount) else id) a).id = a.id := by
          cases hs : truthyId t.account_id with
          | true => simp [applyDelta_id]
          | false => simp
        cases hd : truthyId t.to_account_id with
        | true =>
          obtain ⟨k, hk, hk0⟩ := truthyId_true_iff.1 hd
          simp only [if_true, hk, Option.getD_some]
          rw [applyDelta_current, hid, hsrc]
          by_cases hak : a.id = k
          · simp [hak]
            ring
          · have hne : ¬(some k = some a.id) := by
              simp
              omega
            simp [hak, hne]
        | false =>
          have hne := truthyId_false_ne haid hd
          simp only [if_false, Bool.false_eq_true, id_eq, hne]
          rw [hsrc]
          simp
      | false =>
        simp only [hE, hI, hT, Bool.false_eq_true, if_false]
        have h0 : signedEffect (insertedRow n t) a.id = 0 := by
          apply signedEffect_zero_of_untouched _ haid
          · simpa [insertedRow] using hT
          · simpa [insertedRow] using (by simp [hE] : ¬((t.transaction_type == "Expense") && truthyId t.account_id = true))
          · simpa [insertedRow] using (by simp [hI] : ¬((t.transaction_type == "Income") && truthyId t.account_id = true))
        rw [h0]
        ring

theorem update_transaction_transactions (db : DB) (t : Transaction) :
    (update_transaction db t).transactions =
      db.transactions.map (fun r => if some r.id == t.id then setFields t r else r) := by
  unfold update_transaction
  rw [applyNewBalance_transactions]
  cases h : get_transaction_by_id db t.id with
  | none => simp [h]
  | some o => simp [h, revertBalance_transactions]

theorem update_transaction_nextid (db : DB) (t : Transaction) :
    (update_transaction db t).next_transaction_id = db.next_transaction_id := by
  unfold update_transaction
  rw [applyNewBalance_nextid]
  cases h : get_transaction_by_id db t.id with
  | none => simp [h]
  | some o => simp [h, revertBalance_nextid]

theorem ut_accounts_some (db : DB) (t : Transaction) (o : TxnRow)
    (hfind : get_transaction_by_id db t.id = some o) :
    (update_transaction db t).accounts = (db.accounts.map (revFn o)).map (appFn t) := by
  unfold update_transaction
  rw [applyNewBalance_accounts]
  simp [hfind, revertBalance_accounts]

theorem ut_accounts_none (db : DB) (t : Transaction)
    (hfind : get_transaction_by_id db t.id = none) :
    (update_transaction db t).accounts = db.accounts.map (appFn t) := by
  unfold update_transaction
  rw [applyNewBalance_accounts]
  simp [hfind]

theorem delete_transaction_transactions (db : DB) (i : Nat) :
    (delete_transaction db i).transactions =
      db.transactions.filter (fun r => r.id != i) := by
  unfold delete_transaction
  cases h : db.transactions.find? (fun r => r.id == i) with
  | none => simp [h]
  | some o => simp [h, revertBalance_transactions]

theorem delete_transaction_nextid (db : DB) (i : Nat) :
    (delete_transaction db i).next_transaction_id = db.next_transaction_id := by
  unfold delete_transaction
  cases h : db.transactions.find? (fun r => r.id == i) with
  | none => simp [h]
  | some o => simp [h, revertBalance_nextid]

theorem del_accounts_some (db : DB) (i : Nat) (o : TxnRow)
    (hfind : db.transactions.find? (fun r => r.id == i) = some o) :
    (delete_transaction db i).accounts = db.accounts.map (revFn o) := by
  unfold delete_transaction
  simp [hfind, revertBalance_accounts]

theorem del_accounts_none (db : DB) (i : Nat)
    (hfind : db.transactions.find? (fun r => r.id == i) = none) :
    (delete_transaction db i).accounts = db.accounts := by
  unfold delete_transaction
  simp [hfind]

/-! ## Preservation of the invariant by each operation -/

theorem add_transaction_balanced (db : DB) (t : Transaction)
    (h0 : ∀ a ∈ db.accounts, a.id ≠ 0) (hbal : Balanced db) :
    Balanced (add_transaction db t).1 := by
  intro a' ha'
  rw [add_transaction_accounts] at ha'
  rcases List.mem_map.1 ha' with ⟨a, ha, rfl⟩
  unfold accBal
  rw [add_transaction_transactions, addFn_id, addFn_initial, effectSum_append, effectSum_single,
    addFn_current t db.next_transaction_id a (h0 a ha)]
  have hb := hbal a ha
  unfold accBal at hb
  rw [hb]
  ring

theorem update_transaction_balanced (db : DB) (t : Transaction) (o : TxnRow)
    (h0 : ∀ a ∈ db.accounts, a.id ≠ 0)
    (hnodup : (db.transactions.map (·.id)).Nodup)
    (hbal : Balanced db)
    (hfind : get_transaction_by_id db t.id = some o)
    (hoT : o.transaction_type ≠ "Transfer")
    (htT : t.transaction_type ≠ "Transfer") :
    Balanced (update_transaction db t) := by
  have hpred := List.find?_some hfind
  have htid : t.id = some o.id := by
    have := hpred
    simp only [beq_iff_eq] at this
    exact this.symm
  have hlam : (fun r : TxnRow => if some r.id == t.id then setFields t r else r)
      = (fun r => if r.id == o.id then setFields t r else r) := by
    funext r
    rw [htid]
    by_cases h : r.id = o.id
    · simp [h]
    · simp [h]
  have hpred2 : (fun r : TxnRow => some r.id == t.id) = (fun r => r.id == o.id) := by
    funext r
    rw [htid]
    by_cases h : r.id = o.id
    · simp [h]
    · simp [h]
  have hfind2 : db.transactions.find? (fun r => r.id == o.id) = some o := by
    rw [get_transaction_by_id, hpred2] at hfind
    exact hfind
  intro a' ha'
  rw [ut_accounts_some db t o hfind] at ha'
  rcases List.mem_map.1 ha' with ⟨a1, ha1, rfl⟩
  rcases List.mem_map.1 ha1 with ⟨a, ha, rfl⟩
  unfold accBal
  rw [update_transaction_transactions, hlam,
    effectSum_map_replace (setFields t) hnodup hfind2,
    appFn_id, revFn_id, appFn_initial, revFn_initial,
    appFn_current t o _ (by rw [revFn_id]; exact h0 a ha) htT,
    revFn_id, revFn_current o a (h0 a ha) hoT]
  have hb := hbal a ha
  unfold accBal at hb
  rw [hb]
  ring

theorem delete_transaction_balanced (db : DB) (i : Nat)
    (h0 : ∀ a ∈ db.accounts, a.id ≠ 0)
    (hnodup : (db.transactions.map (·.id)).Nodup)
    (hbal : Balanced db)
    (hok : ∀ o, db.transactions.find? (fun r => r.id == i) = some o →
      o.transaction_type ≠ "Transfer") :
    Balanced (delete_transaction db i) := by
  cases hfind : db.transactions.find? (fun r => r.id == i) with
  | none =>
    intro a' ha'
    rw [del_accounts_none db i hfind] at ha'
    unfold accBal
    rw [delete_transaction_transactions, filter_out_of_find_none hfind]
    exact hbal a' ha'
  | some o =>
    intro a' ha'
    rw [del_accounts_some db i o hfind] at ha'
    rcases List.mem_map.1 ha' with ⟨a, ha, rfl⟩
    unfold accBal
    rw [delete_transaction_transactions, effectSum_filter_out hnodup hfind,
      revFn_id, revFn_initial, revFn_current o a (h0 a ha) (hok o hfind)]
    have hb := hbal a ha
    unfold accBal at hb
    rw [hb]
    ring

/-! ## Preservation of well-formedness by each operation -/

theorem add_transaction_wf (db : DB) (t : Transaction) (hwf : WFdb db) :
    WFdb (add_transaction db t).1 := by
  obtain ⟨hacc, hnodup, hbound⟩ := hwf
  refine ⟨?_, ?_, ?_⟩
  · intro a' ha'
    rw [add_transaction_accounts] at ha'
    rcases List.mem_map.1 ha' with ⟨a, ha, rfl⟩
    rw [addFn_id]
    exact hacc a ha
  · rw [add_transaction_transactions, List.map_append]
    rw [List.nodup_append]
    refine ⟨hnodup, by simp, ?_⟩
    intro x hx
    simp only [List.map_cons, List.map_nil, List.mem_singleton, insertedRow_id]
    rcases List.mem_map.1 hx with ⟨r, hr, rfl⟩
    have := hbound r hr
    omega
  · intro r hr
    rw [add_transaction_transactions] at hr
    rw [add_transaction_nextid]
    rcases List.mem_append.1 hr with h | h
    · exact Nat.lt_succ_of_lt (hbound r h)
    · rw [List.mem_singleton.1 h, insertedRow_id]
      omega

theorem update_transaction_wf (db : DB) (t : Transaction) (hwf : WFdb db) :
    WFdb (update_transaction db t) := by
  obtain ⟨hacc, hnodup, hbound⟩ := hwf
  have hids : (update_transaction db t).transactions.map (·.id) = db.transactions.map (·.id) := by
    rw [update_transaction_transactions, List.map_map]
    apply List.map_congr_left
    intro r _
    by_cases h : some r.id == t.id
    · simp [Function.comp, h, setFields_id]
    · simp only [Function.comp]
      rw [if_neg h]
  refine ⟨?_, ?_, ?_⟩
  · intro a' ha'
    cases hfind : get_transaction_by_id db t.id with
    | none =>
      rw [ut_accounts_none db t hfind] at ha'
      rcases List.mem_map.1 ha' with ⟨a, ha, rfl⟩
      rw [appFn_id]
      exact hacc a ha
    | some o =>
      rw [ut_accounts_some db t o hfind] at ha'
      rcases List.mem_map.1 ha' with ⟨a1, ha1, rfl⟩
      rcases List.mem_map.1 ha1 with ⟨a, ha, rfl⟩
      rw [appFn_id, revFn_id]
      exact hacc a ha
  · rw [hids]
    exact hnodup
  · intro r hr
    rw [update_transaction_transactions] at hr
    rw [update_transaction_nextid]
    rcases List.mem_map.1 hr with ⟨r0, hr0, rfl⟩
    by_cases h : some r0.id == t.id
    · rw [if_pos h, setFields_id]
      exact hbound r0 hr0
    · rw [if_neg h]
      exact hbound r0 hr0

theorem delete_transaction_wf (db : DB) (i : Nat) (hwf : WFdb db) :
    WFdb (delete_transaction db i) := by
  obtain ⟨hacc, hnodup, hbound⟩ := hwf
  refine ⟨?_, ?_, ?_⟩
  · intro a' ha'
    cases hfind : db.transactions.find? (fun r => r.id == i) with
    | none =>
      rw [del_accounts_none db i hfind] at ha'
      exact hacc a' ha'
    | some o =>
      rw [del_accounts_some db i o hfind] at ha'
      rcases List.mem_map.1 ha' with ⟨a, ha, rfl⟩
      rw [revFn_id]
      exact hacc a ha
  · rw [delete_transaction_transactions]
    exact hnodup.sublist (List.Sublist.map _ (List.filter_sublist _))
  · intro r hr
    rw [delete_transaction_transactions] at hr
    rw [delete_transaction_nextid]
    exact hbound r (List.mem_of_mem_filter hr)

/-! ## Sequences -/

theorem applyOp_preserves (db : DB) (op : Op) (hwf : WFdb db) (hbal : Balanced db)
    (hok : OpOk db op) : WFdb (applyOp db op) ∧ Balanced (applyOp db op) := by
  cases op with
  | addT t =>
    exact ⟨add_transaction_wf db t hwf, add_transaction_balanced db t hwf.1 hbal⟩
  | updT t =>
    obtain ⟨htT, o, hfind, hoT⟩ := hok
    exact ⟨update_transaction_wf db t hwf,
      update_transaction_balanced db t o hwf.1 hwf.2.1 hbal hfind hoT htT⟩
  | delT i =>
    exact ⟨delete_transaction_wf db i hwf,
      delete_transaction_balanced db i hwf.1 hwf.2.1 hbal hok⟩

theorem seq_preserves (ops : List Op) (db : DB) (hwf : WFdb db) (hbal : Balanced db)
    (hok : SeqOk db ops) : WFdb (applyOps db ops) ∧ Balanced (applyOps db ops) := by
  induction ops generalizing db with
  | nil => exact ⟨hwf, hbal⟩
  | cons op ops ih =>
    obtain ⟨h1, h2⟩ := hok
    obtain ⟨hw, hb⟩ := applyOp_preserves db op hwf hbal h1
    exact ih (applyOp db op) hw hb h2

theorem seqOk_append_left (db : DB) (pre suf : List Op) (h : SeqOk db (pre ++ suf)) :
    SeqOk db pre := by
  induction pre generalizing db with
  | nil => trivial
  | cons op ops ih => exact ⟨h.1, ih (applyOp db op) h.2⟩

/-! ## Concrete stores used as test inputs -/

/-- Account "A": id 1, opened at 1000. -/
def accA : AccountRow :=
  { id := 1, name := "A", account_type := "Bank", initial_balance := 1000,
    current_balance := 1000, currency := "USD", icon := "bank", color := "#000000",
    is_credit_card := false, credit_limit := 0, due_date := none, interest_rate := 0,
    notes := "" }

/-- Account "B": id 2, opened at 200. -/
def accB : AccountRow :=
  { id := 2, name := "B", account_type := "Bank", initial_balance := 200,
    current_balance := 200, currency := "USD", icon := "bank", color := "#000000",
    is_credit_card := false, credit_limit := 0, due_date := none, interest_rate := 0,
    notes := "" }

/-- An Expense of 50 on account 1. -/
def tW1 : Transaction :=
  { id := none, transaction_type := "Expense", amount := 50, category_id := none,
    subcategory_id := none, account_id := some 1, to_account_id := none,
    date := PyDate.str "2024-01-05", time := "10:00", description := "",
    payment_method := "", tags := "", receipt_path := none, recurring_id := none }

/-- The same row edited to amount 75. -/
def tW2 : Transaction := { tW1 with id := some 1, amount := 75 }

/-- One account, no transactions. -/
def dbW1 : DB :=
  { transactions := [], accounts := [accA], budgets := [], categories := [],
    recurring_transactions := [], next_transaction_id := 1 }

/-- Add an Expense of 50, edit it to 75, delete it. -/
def opsW : List Op := [Op.addT tW1, Op.updT tW2, Op.delT 1]

/-- A Transfer of 300 from account 1 to account 2. -/
def tXfer : Transaction :=
  { tW1 with
    transaction_type := "Transfer"
    amount := 300
    to_account_id := some 2 }

/-- Two accounts, no transactions. -/
def dbX : DB :=
  { transactions := [], accounts := [accA, accB], budgets := [], categories := [],
    recurring_transactions := [], next_transaction_id := 1 }

/-- Add a Transfer, then delete it. -/
def opsX : List Op := [Op.addT tXfer, Op.delT 1]

/-! ## Claim C1 -/

/-- C1 (amended): for every well-formed balanced store and every sequence
of add/update/delete operations in which each update targets an existing
non-Transfer row and writes a non-Transfer value, and each delete does not
target a Transfer row, after every operation (every prefix of the
sequence) each account's `current_balance` equals its `initial_balance`
plus the sum of the signed effects (Expense −amount, Income +amount,
Transfer −amount source / +amount destination) of the still-existing
transactions referencing it.  (Unrestricted update/delete of Transfers
falsifies the original claim, see the counterexample.) -/
theorem C1_balance_invariant_amended (db : DB) (ops : List Op)
    (hwf : WFdb db) (hbal : Balanced db) (hok : SeqOk db ops) :
    ∀ pre suf, ops = pre ++ suf → Balanced (applyOps db pre) := by
  intro pre suf hsplit
  subst hsplit
  exact (seq_preserves pre db hwf hbal (seqOk_append_left db pre suf hok)).2

/-- Witness for C1: the spec §8 scenario (add Expense 50, edit to 75,
delete) run from a concrete store, with every hypothesis discharged
concretely. -/
theorem C1_balance_invariant_amended_witness :
    WFdb dbW1 ∧ Balanced dbW1 ∧ SeqOk dbW1 opsW ∧ Balanced (applyOps dbW1 opsW) := by
  have hwf : WFdb dbW1 := ⟨by decide, by decide, by decide⟩
  have hbal : Balanced dbW1 := by
    intro a ha
    simp only [dbW1] at ha
    rw [List.mem_singleton] at ha
    subst ha
    simp [accBal, effectSum, dbW1, accA]
  have hok : SeqOk dbW1 opsW := by
    refine ⟨trivial, ⟨⟨by decide, insertedRow 1 tW1, by decide, by decide⟩, ?_, trivial⟩⟩
    intro o ho
    have hcomp : (applyOp (applyOp dbW1 (Op.addT tW1)) (Op.updT tW2)).transactions.find?
        (fun r => r.id == 1) = some (setFields tW2 (insertedRow 1 tW1)) := by decide
    rw [hcomp] at ho
    injection ho with h
    rw [← h]
    decide
  exact ⟨hwf, hbal, hok,
    C1_balance_invariant_amended dbW1 opsW hwf hbal hok opsW [] (by simp)⟩

/-- Counterexample to C1 as stated: from a balanced well-formed store, add
a Transfer of 300 from account 1 to account 2 and then delete it; the
delete reverses no Transfer effect, so afterwards account 1 holds 700
against an empty transaction table and the invariant is violated. -/
theorem C1_claim_counterexample :
    WFdb dbX ∧ Balanced dbX ∧ ¬ Balanced (applyOps dbX opsX) := by
  refine ⟨⟨by decide, by decide, by decide⟩, ?_, ?_⟩
  · intro a ha
    simp only [dbX, List.mem_cons, List.mem_singleton, List.not_mem_nil, or_false] at ha
    rcases ha with rfl | rfl
    · simp [accBal, effectSum, dbX, accA]
    · simp [accBal, effectSum, dbX, accB]
  · intro h
    have htx : (applyOps dbX opsX).transactions = [] := by decide
    have haccs : (applyOps dbX opsX).accounts =
        [{ accA with current_balance := 700 }, { accB with current_balance := 500 }] := by
      show (delete_transaction (add_transaction dbX tXfer).1 1).accounts = _
      have h1 : (add_transaction dbX tXfer).1.accounts =
          [{ accA with current_balance := 700 }, { accB with current_balance := 500 }] := by
        rw [add_transaction_accounts]
        show [addFn tXfer accA, addFn tXfer accB] = _
        norm_num [addFn, tXfer, tW1, truthyId, applyDelta, accA, accB]
        decide
      have h2 : (add_transaction dbX tXfer).1.transactions.find? (fun r => r.id == 1)
          = some (insertedRow 1 tXfer) := by decide
      rw [del_accounts_some _ 1 _ h2, h1]
      have hrev : ∀ a, revFn (insertedRow 1 tXfer) a = a := by
        intro a
        simp [revFn, insertedRow, tXfer, tW1]
      simp [hrev]
    have h1 := h _ (by rw [haccs]; exact List.mem_cons_self _ _)
    unfold accBal at h1
    rw [htx] at h1
    simp only [effectSum_nil, add_zero] at h1
    simp [accA] at h1

/-! ## Frame lemmas for the untouched tables -/

theorem revertBalance_budgets (db : DB) (o : TxnRow) :
    (revertBalance db o).budgets = db.budgets := by
  unfold revertBalance
  split
  · rfl
  · split <;> rfl

theorem revertBalance_categories (db : DB) (o : TxnRow) :
    (revertBalance db o).categories = db.categories := by
  unfold revertBalance
  split
  · rfl
  · split <;> rfl

theorem revertBalance_recurrings (db : DB) (o : TxnRow) :
    (revertBalance db o).recurring_transactions = db.recurring_transactions := by
  unfold revertBalance
  split
  · rfl
  · split <;> rfl

theorem applyNewBalance_budgets (db : DB) (t : Transaction) :
    (applyNewBalance db t).budgets = db.budgets := by
  unfold applyNewBalance
  split
  · rfl
  · split <;> rfl

theorem applyNewBalance_categories (db : DB) (t : Transaction) :
    (applyNewBalance db t).categories = db.categories := by
  unfold applyNewBalance
  split
  · rfl
  · split <;> rfl

theorem applyNewBalance_recurrings (db : DB) (t : Transaction) :
    (applyNewBalance db t).recurring_transactions = db.recurring_transactions := by
  unfold applyNewBalance
  split
  · rfl
  · split <;> rfl

theorem update_transaction_budgets (db : DB) (t : Transaction) :
    (update_transaction db t).budgets = db.budgets := by
  unfold update_transaction
  rw [applyNewBalance_budgets]
  cases h : get_transaction_by_id db t.id with
  | none => simp [h]
  | some o => simp [h, revertBalance_budgets]

theorem update_transaction_categories (db : DB) (t : Transaction) :
    (update_transaction db t).categories = db.categories := by
  unfold update_transaction
  rw [applyNewBalance_categories]
  cases h : get_transaction_by_id db t.id with
  | none => simp [h]
  | some o => simp [h, revertBalance_categories]

theorem update_transaction_recurrings (db : DB) (t : Transaction) :
    (update_transaction db t).recurring_transactions = db.recurring_transactions := by
  unfold update_transaction
  rw [applyNewBalance_recurrings]
  cases h : get_transaction_by_id db t.id with
  | none => simp [h]
  | some o => simp [h, revertBalance_recurrings]

/-! ## Claim C2 -/

/-- An Expense of 50 on account 1 carrying the absent row id 5. -/
def tC2 : Transaction := { tW1 with id := some 5 }

/-- C2 is violated by the code: updating a transaction whose id matches no
row raises nothing and leaves the row set unchanged, yet still applies the
new balance effect — from the one-account store holding 1000 and no
transactions, `update_transaction` with an absent id silently drives the
balance to 950 instead of failing with NotFound and leaving state
unchanged. -/
theorem C2_update_missing_id_bug :
    get_transaction_by_id dbW1 tC2.id = none ∧
    (update_transaction dbW1 tC2).transactions = [] ∧
    (update_transaction dbW1 tC2).accounts.map (·.current_balance) = [950] := by
  refine ⟨by decide, by decide, ?_⟩
  have hfind : get_transaction_by_id dbW1 tC2.id = none := by decide
  rw [ut_accounts_none _ _ hfind]
  show [(appFn tC2 accA).current_balance] = [950]
  norm_num [appFn, tC2, tW1, truthyId, applyDelta, accA]

/-! ## Claim C3 -/

/-- C3: updating an existing Transfer with a Transfer value reverses and
reapplies no balance effect: every account (and every other table and the
id cursor) is exactly as before; only the matching transaction row's
columns are overwritten. -/
theorem C3_transfer_update_frame (db : DB) (t : Transaction) (o : TxnRow)
    (hfind : get_transaction_by_id db t.id = some o)
    (hold : o.transaction_type = "Transfer")
    (hnew : t.transaction_type = "Transfer") :
    (update_transaction db t).accounts = db.accounts ∧
    (update_transaction db t).budgets = db.budgets ∧
    (update_transaction db t).categories = db.categories ∧
    (update_transaction db t).recurring_transactions = db.recurring_transactions ∧
    (update_transaction db t).next_transaction_id = db.next_transaction_id ∧
    (update_transaction db t).transactions =
      db.transactions.map (fun r => if some r.id == t.id then setFields t r else r) := by
  refine ⟨?_, update_transaction_budgets db t, update_transaction_categories db t,
    update_transaction_recurrings db t, update_transaction_nextid db t,
    update_transaction_transactions db t⟩
  rw [ut_accounts_some db t o hfind]
  have hrev : ∀ a, revFn o a = a := by
    intro a
    simp [revFn, hold]
  have happ : ∀ a, appFn t a = a := by
    intro a
    simp [appFn, hnew]
  rw [List.map_map]
  have hcomp : (appFn t ∘ revFn o) = id := by
    funext a
    simp [Function.comp, hrev, happ]
  rw [hcomp, List.map_id]

/-- The stored Transfer row of the C3 witness store. -/
def rowX : TxnRow := insertedRow 1 tXfer

/-- Store holding one Transfer row and the two post-transfer accounts. -/
def dbT : DB :=
  { transactions := [rowX],
    accounts := [{ accA with current_balance := 700 }, { accB with current_balance := 500 }],
    budgets := [], categories := [], recurring_transactions := [],
    next_transaction_id := 2 }

/-- The Transfer edited to amount 400. -/
def tX2 : Transaction := { tXfer with id := some 1, amount := 400 }

/-- Witness for C3: editing the stored Transfer's amount from 300 to 400
leaves both account balances untouched. -/
theorem C3_transfer_update_frame_witness :
    get_transaction_by_id dbT tX2.id = some rowX ∧
    rowX.transaction_type = "Transfer" ∧
    tX2.transaction_type = "Transfer" ∧
    (update_transaction dbT tX2).accounts = dbT.accounts :=
  ⟨by decide, by decide, by decide,
    (C3_transfer_update_frame dbT tX2 rowX (by decide) (by decide) (by decide)).1⟩

/-! ## Claim C4 -/

theorem sqlSum_collapse (l : List ℚ) :
    (match sqlSum l with
     | none => (0 : ℚ)
     | some s => if s = 0 then 0 else s) = l.sum := by
  cases l with
  | nil => simp [sqlSum]
  | cons x xs =>
    show (if (x :: xs).sum = 0 then (0 : ℚ) else (x :: xs).sum) = (x :: xs).sum
    split
    · rename_i h
      exact h.symm
    · rfl

/-- C4: after `update_budget_spent(cid, ps, pe)` every budget row of that
category holds `spent` equal to the sum of the amounts of the Expense
transactions of that category dated inside the inclusive range (an empty
sum is 0, and all matching rows hold this same figure). -/
theorem C4_update_budget_spent (db : DB) (cid : Nat) (ps pe : String) :
    ∀ b ∈ (update_budget_spent db cid ps pe).budgets,
      b.category_id = some cid →
      b.spent = ((db.transactions.filter (fun t =>
        t.category_id == some cid && t.transaction_type == "Expense" &&
        strLe ps t.date && strLe t.date pe)).map (·.amount)).sum := by
  intro b hb hcat
  simp only [update_budget_spent] at hb
  rcases List.mem_map.1 hb with ⟨b0, hb0, rfl⟩
  by_cases h : b0.category_id == some cid
  · simp only [h, if_true]
    exact sqlSum_collapse _
  · exfalso
    rw [if_neg (by simp [h])] at hcat
    exact h (by simp [hcat])

/-- An Expense of 40 in category 1 dated 2024-01-05. -/
def rowE : TxnRow :=
  { id := 1, transaction_type := "Expense", amount := 40, category_id := some 1,
    subcategory_id := none, account_id := some 1, to_account_id := none,
    date := "2024-01-05", time := none, description := "", payment_method := "",
    tags := "", receipt_path := none, recurring_id := none }

/-- A budget for category 1 whose recorded `spent` is stale. -/
def bW : BudgetRow :=
  { id := 1, category_id := some 1, amount := 500, period := "Monthly",
    start_date := none, end_date := none, alert_percentage := 80, spent := 7 }

/-- Store with one budget and one Expense outside the recomputed period. -/
def dbB : DB :=
  { transactions := [rowE], accounts := [accA], budgets := [bW], categories := [],
    recurring_transactions := [], next_transaction_id := 2 }

/-- Witness for C4: recomputing over February (which contains no Expense of
the category) overwrites the stale `spent` 7 with the empty sum 0. -/
theorem C4_update_budget_spent_witness :
    ({ bW with spent := 0 } ∈ (update_budget_spent dbB 1 "2024-02-01" "2024-02-28").budgets) ∧
    ({ bW with spent := 0 } : BudgetRow).category_id = some 1 ∧
    ({ bW with spent := 0 } : BudgetRow).spent =
      ((dbB.transactions.filter (fun t =>
        t.category_id == some 1 && t.transaction_type == "Expense" &&
        strLe "2024-02-01" t.date && strLe t.date "2024-02-28")).map (·.amount)).sum :=
  ⟨by decide, by decide,
    C4_update_budget_spent dbB 1 "2024-02-01" "2024-02-28" _ (by decide) (by decide)⟩

/-! ## Claim C5 -/

/-- A Monthly pattern (interval 1) due 2024-01-01. -/
def recR : RecurringRow :=
  { id := 1, transaction_type := "Expense", amount := 100, category_id := none,
    subcategory_id := none, account_id := some 1, description := "rent",
    frequency := "Monthly", custom_interval := 1, start_date := none, end_date := none,
    next_due_date := some "2024-01-01", auto_create := true, active := true }

/-- Store with the due pattern, one account and no transactions. -/
def dbR : DB :=
  { transactions := [], accounts := [accA], budgets := [], categories := [],
    recurring_transactions := [recR], next_transaction_id := 1 }

/-- C5: the next-due-date advance parses the cursor and adds the flat day
count of the claim's table (Daily N, Weekly 7N, Monthly 30N, Yearly 365N,
anything else N); materializing the due Monthly pattern cursor 2024-01-01
creates exactly one transaction back-referencing the pattern and advances
the cursor to 2024-01-31. -/
theorem C5_next_due_date_rule :
    (∀ (d f : String) (n : Nat) (dt : PyDateTime), strptimeYMD d = some dt →
      calculate_next_due_date d f n =
        some (PyDateTime.strftimeYMD (addDays dt
          (if f = "Daily" then n
           else if f = "Weekly" then 7 * n
           else if f = "Monthly" then 30 * n
           else if f = "Yearly" then 365 * n
           else n)))) ∧
    recR ∈ check_recurring_transactions dbR "2024-01-01" ∧
    (create_recurring_transaction_instances dbR ⟨2024, 1, 1, 0⟩ "10:00").2.1 = 1 ∧
    (create_recurring_transaction_instances dbR ⟨2024, 1, 1, 0⟩ "10:00").2.2 = true ∧
    (create_recurring_transaction_instances dbR ⟨2024, 1, 1, 0⟩ "10:00").1.recurring_transactions.map
      (·.next_due_date) = [some "2024-01-31"] ∧
    (create_recurring_transaction_instances dbR ⟨2024, 1, 1, 0⟩ "10:00").1.transactions.map
      (·.recurring_id) = [some 1] ∧
    dbR.transactions = [] := by
  refine ⟨?_, by decide, by decide, by decide, by decide, by decide, rfl⟩
  intro d f n dt h
  unfold calculate_next_due_date
  rw [h]
  simp only [Option.map_some']
  by_cases h1 : f = "Daily"
  · simp [beq_iff_eq, h1]
  · by_cases h2 : f = "Weekly"
    · simp [beq_iff_eq, h1, h2]
    · by_cases h3 : f = "Monthly"
      · simp [beq_iff_eq, h1, h2, h3]
      · by_cases h4 : f = "Yearly"
        · simp [beq_iff_eq, h1, h2, h3, h4]
        · simp [beq_iff_eq, h1, h2, h3, h4]

/-- Witness for C5: the rule applied at cursor 2024-01-01, frequency
Monthly, interval 1 (30 flat days later is 2024-01-31). -/
theorem C5_next_due_date_rule_witness :
    strptimeYMD "2024-01-01" = some ⟨2024, 1, 1, 0⟩ ∧
    calculate_next_due_date "2024-01-01" "Monthly" 1 =
      some (PyDateTime.strftimeYMD (addDays ⟨2024, 1, 1, 0⟩
        (if "Monthly" = "Daily" then 1
         else if "Monthly" = "Weekly" then 7 * 1
         else if "Monthly" = "Monthly" then 30 * 1
         else if "Monthly" = "Yearly" then 365 * 1
         else 1))) :=
  ⟨by decide, C5_next_due_date_rule.1 "2024-01-01" "Monthly" 1 ⟨2024, 1, 1, 0⟩ (by decide)⟩

/-! ## Claim C7 -/

theorem foldl_append_filter {α β : Type _} (p : α → Prop) [DecidablePred p] (f : α → β)
    (l : List α) (acc : List β) :
    l.foldl (fun bs a => if p a then bs ++ [f a] else bs) acc
      = acc ++ (l.filter (fun a => decide (p a))).map f := by
  induction l generalizing acc with
  | nil => simp
  | cons x xs ih =>
    rw [List.foldl_cons]
    by_cases h : p x
    · rw [if_pos h, ih]
      simp [h]
    · rw [if_neg h, ih]
      simp [h]

/-- C7: the budget-alert check emits, in store order, exactly one alert for
each budget whose consumed percentage (spent/amount·100 when the ceiling is
positive, otherwise 0) reaches its threshold, with severity "high" iff the
percentage reaches 100 and "medium" otherwise. -/
theorem C7_budget_alert_rule (db : DB) :
    check_budget_alerts db =
      ((get_budgets db).filter (fun b =>
        decide ((if b.row.amount > 0 then b.row.spent / b.row.amount * 100 else 0)
          ≥ b.row.alert_percentage))).map
        (fun b =>
          { type := "budget_alert"
            category := b.category_name
            percentage := if b.row.amount > 0 then b.row.spent / b.row.amount * 100 else 0
            spent := b.row.spent
            amount := b.row.amount
            severity := if (if b.row.amount > 0 then b.row.spent / b.row.amount * 100 else 0) ≥ 100
              then "high" else "medium" }) := by
  have h := foldl_append_filter
    (fun b : JoinedBudget =>
      (if b.row.amount > 0 then b.row.spent / b.row.amount * 100 else 0) ≥ b.row.alert_percentage)
    (fun b : JoinedBudget =>
      ({ type := "budget_alert"
         category := b.category_name
         percentage := if b.row.amount > 0 then b.row.spent / b.row.amount * 100 else 0
         spent := b.row.spent
         amount := b.row.amount
         severity := if (if b.row.amount > 0 then b.row.spent / b.row.amount * 100 else 0) ≥ 100
           then "high" else "medium" } : BudgetAlert))
    (get_budgets db) []
  rw [List.nil_append] at h
  exact h

/-! ## Claim C8 -/

theorem sum_map_ite_eq_sum_filter {α : Type _} (q : α → Bool) (f : α → ℚ) (l : List α) :
    (l.map (fun x => if q x then f x else 0)).sum = ((l.filter q).map f).sum := by
  induction l with
  | nil => rfl
  | cons x xs ih =>
    cases h : q x with
    | true => simp [List.filter_cons, h, ih]
    | false => simp [List.filter_cons, h, ih]

/-- The general shape of `get_income_vs_expense`: the two sums over the
Income and Expense rows of the inclusive date range (0 when none). -/
theorem income_vs_expense_sums (db : DB) (s e : String) :
    get_income_vs_expense db s e =
      (((db.transactions.filter (fun t =>
          (strLe s t.date && strLe t.date e) && t.transaction_type == "Income")).map (·.amount)).sum,
       ((db.transactions.filter (fun t =>
          (strLe s t.date && strLe t.date e) && t.transaction_type == "Expense")).map (·.amount)).sum) := by
  unfold get_income_vs_expense
  rw [Prod.mk.injEq]
  constructor
  · rw [sqlSum_collapse, sum_map_ite_eq_sum_filter, List.filter_filter]
    have hc : (fun a : TxnRow => a.transaction_type == "Income" && (strLe s a.date && strLe a.date e))
        = (fun t : TxnRow => (strLe s t.date && strLe t.date e) && t.transaction_type == "Income") := by
      funext a
      rw [Bool.and_comm]
    rw [hc]
  · rw [sqlSum_collapse, sum_map_ite_eq_sum_filter, List.filter_filter]
    have hc : (fun a : TxnRow => a.transaction_type == "Expense" && (strLe s a.date && strLe a.date e))
        = (fun t : TxnRow => (strLe s t.date && strLe t.date e) && t.transaction_type == "Expense") := by
      funext a
      rw [Bool.and_comm]
    rw [hc]

/-- An Income of 2000 dated 2024-01-10. -/
def rowInc : TxnRow :=
  { id := 1, transaction_type := "Income", amount := 2000, category_id := none,
    subcategory_id := none, account_id := some 1, to_account_id := none,
    date := "2024-01-10", time := none, description := "", payment_method := "",
    tags := "", receipt_path := none, recurring_id := none }

/-- An Expense of 300 dated 2024-01-15. -/
def rowExp : TxnRow :=
  { rowInc with
    id := 2
    transaction_type := "Expense"
    amount := 300
    date := "2024-01-15"
    category_id := some 1 }

/-- Store with exactly the two transactions of the claim's scenario. -/
def dbIE : DB :=
  { transactions := [rowInc, rowExp], accounts := [], budgets := [], categories := [],
    recurring_transactions := [], next_transaction_id := 3 }

/-- C7's sibling aggregate (claim C8): the income-vs-expense query returns
the pair of range-restricted Income and Expense sums, with zero defaults;
over January 2024 of the scenario store it returns (2000, 300), and over
the disjoint January 2025 it returns (0, 0). -/
theorem C8_income_vs_expense :
    (∀ (db : DB) (s e : String),
      get_income_vs_expense db s e =
        (((db.transactions.filter (fun t =>
            (strLe s t.date && strLe t.date e) && t.transaction_type == "Income")).map (·.amount)).sum,
         ((db.transactions.filter (fun t =>
            (strLe s t.date && strLe t.date e) && t.transaction_type == "Expense")).map (·.amount)).sum)) ∧
    get_income_vs_expense dbIE "2024-01-01" "2024-01-31" = (2000, 300) ∧
    get_income_vs_expense dbIE "2025-01-01" "2025-01-31" = (0, 0) := by
  refine ⟨income_vs_expense_sums, ?_, ?_⟩
  · rw [income_vs_expense_sums]
    have h1 : dbIE.transactions.filter (fun t =>
        (strLe "2024-01-01" t.date && strLe t.date "2024-01-31") && t.transaction_type == "Income")
        = [rowInc] := by decide
    have h2 : dbIE.transactions.filter (fun t =>
        (strLe "2024-01-01" t.date && strLe t.date "2024-01-31") && t.transaction_type == "Expense")
        = [rowExp] := by decide
    rw [h1, h2]
    simp [rowInc, rowExp]
  · rw [income_vs_expense_sums]
    have h1 : dbIE.transactions.filter (fun t =>
        (strLe "2025-01-01" t.date && strLe t.date "2025-01-31") && t.transaction_type == "Income")
        = [] := by decide
    have h2 : dbIE.transactions.filter (fun t =>
        (strLe "2025-01-01" t.date && strLe t.date "2025-01-31") && t.transaction_type == "Expense")
        = [] := by decide
    rw [h1, h2]
    simp

/-! ## Claim C9 -/

/-- C9: `update_account_balance` with an unmatched id is a no-op on the
whole store; with a matched id it changes only that account's
`current_balance`, by exactly the delta, leaving every other field of every
account and every other table untouched. -/
theorem C9_update_account_balance_frame (db : DB) (k : Nat) (δ : ℚ) :
    ((∀ a ∈ db.accounts, a.id ≠ k) → update_account_balance db k δ = db) ∧
    (update_account_balance db k δ).transactions = db.transactions ∧
    (update_account_balance db k δ).budgets = db.budgets ∧
    (update_account_balance db k δ).categories = db.categories ∧
    (update_account_balance db k δ).recurring_transactions = db.recurring_transactions ∧
    (update_account_balance db k δ).next_transaction_id = db.next_transaction_id ∧
    (update_account_balance db k δ).accounts = db.accounts.map (applyDelta k δ) ∧
    ∀ a ∈ db.accounts,
      (applyDelta k δ a).id = a.id ∧
      (applyDelta k δ a).name = a.name ∧
      (applyDelta k δ a).account_type = a.account_type ∧
      (applyDelta k δ a).initial_balance = a.initial_balance ∧
      (applyDelta k δ a).currency = a.currency ∧
      (applyDelta k δ a).icon = a.icon ∧
      (applyDelta k δ a).color = a.color ∧
      (applyDelta k δ a).is_credit_card = a.is_credit_card ∧
      (applyDelta k δ a).credit_limit = a.credit_limit ∧
      (applyDelta k δ a).due_date = a.due_date ∧
      (applyDelta k δ a).interest_rate = a.interest_rate ∧
      (applyDelta k δ a).notes = a.notes ∧
      (applyDelta k δ a).current_balance = a.current_balance + (if a.id = k then δ else 0) := by
  refine ⟨?_, rfl, rfl, rfl, rfl, rfl, rfl, ?_⟩
  · intro h
    have hmap : db.accounts.map (applyDelta k δ) = db.accounts.map id := by
      apply List.map_congr_left
      intro a ha
      simp [applyDelta, h a ha]
    unfold update_account_balance
    rw [hmap, List.map_id]
  · intro a _
    refine ⟨applyDelta_id k δ a, ?_, ?_, applyDelta_initial k δ a, ?_, ?_, ?_, ?_, ?_, ?_, ?_, ?_,
      applyDelta_current k δ a⟩ <;>
      (unfold applyDelta; split <;> rfl)

/-- Witness for C9: in the two-account store (ids 1 and 2), adding 5 to the
absent account id 3 changes nothing at all. -/
theorem C9_update_account_balance_frame_witness :
    (∀ a ∈ dbX.accounts, a.id ≠ 3) ∧ update_account_balance dbX 3 5 = dbX :=
  ⟨by decide, (C9_update_account_balance_frame dbX 3 5).1 (by decide)⟩

/-! ## Claim C10 -/

theorem mem_insertByDue {x r : RecurringRow} {l : List RecurringRow} :
    x ∈ insertByDue r l ↔ x = r ∨ x ∈ l := by
  induction l with
  | nil => simp [insertByDue]
  | cons y ys ih =>
    unfold insertByDue
    split
    · simp [List.mem_cons]
    · simp only [List.mem_cons, ih]
      tauto

theorem mem_sortByDue {x : RecurringRow} {l : List RecurringRow} :
    x ∈ sortByDue l ↔ x ∈ l := by
  induction l with
  | nil => simp [sortByDue]
  | cons y ys ih =>
    unfold sortByDue
    rw [mem_insertByDue, List.mem_cons, ih]

theorem add_transaction_recurrings (db : DB) (t : Transaction) :
    (add_transaction db t).1.recurring_transactions = db.recurring_transactions := by
  unfold add_transaction update_account_balance
  split
  · rfl
  · split
    · rfl
    · split
      · split
        · split <;> rfl
        · split <;> rfl
      · rfl

theorem set_next_due_transactions (db : DB) (rid : Nat) (nd : String) :
    (set_next_due db rid nd).transactions = db.transactions := rfl

/-- No iteration of the materialization loop over patterns with ids other
than `rid` creates a transaction referencing `rid`. -/
theorem createLoop_filter_frame (now : PyDateTime) (nowTime : String) (rid : Nat)
    (l : List RecurringRow) (db : DB) (n : Nat)
    (hl : ∀ p ∈ l, p.id ≠ rid) :
    ((createLoop now nowTime l db n).1.transactions.filter (fun t => t.recurring_id == some rid))
      = db.transactions.filter (fun t => t.recurring_id == some rid) := by
  induction l generalizing db n with
  | nil => rfl
  | cons p ps ih =>
    have hp := hl p (List.mem_cons_self p ps)
    have hps : ∀ q ∈ ps, q.id ≠ rid := fun q hq => hl q (List.mem_cons_of_mem p hq)
    have hd1 : ((add_transaction db (instanceOf p now nowTime)).1.transactions.filter
        (fun t => t.recurring_id == some rid))
        = db.transactions.filter (fun t => t.recurring_id == some rid) := by
      rw [add_transaction_transactions, List.filter_append]
      have hrow : (((insertedRow db.next_transaction_id (instanceOf p now nowTime)).recurring_id
          == some rid) : Bool) = false := by
        show ((some p.id == some rid : Bool)) = false
        simp
        omega
      simp [hrow]
    unfold createLoop
    cases hcalc : calculate_next_due_date (p.next_due_date.getD "") p.frequency p.custom_interval with
    | some nd =>
      simp only [hcalc]
      rw [ih _ _ hps]
      rw [set_next_due_transactions]
      exact hd1
    | none =>
      simp only [hcalc]
      exact hd1

/-- No iteration of the loop over patterns with other ids touches a stored
pattern with id `r.id`. -/
theorem createLoop_keep (now : PyDateTime) (nowTime : String) (r : RecurringRow)
    (l : List RecurringRow) (db : DB) (n : Nat)
    (hl : ∀ p ∈ l, p.id ≠ r.id)
    (hinv : ∀ r' ∈ db.recurring_transactions, r'.id = r.id → r' = r) :
    ∀ r' ∈ (createLoop now nowTime l db n).1.recurring_transactions, r'.id = r.id → r' = r := by
  induction l generalizing db n with
  | nil => exact hinv
  | cons p ps ih =>
    have hp := hl p (List.mem_cons_self p ps)
    have hps : ∀ q ∈ ps, q.id ≠ r.id := fun q hq => hl q (List.mem_cons_of_mem p hq)
    have hinv1 : ∀ r' ∈ (add_transaction db (instanceOf p now nowTime)).1.recurring_transactions,
        r'.id = r.id → r' = r := by
      rw [add_transaction_recurrings]
      exact hinv
    unfold createLoop
    cases hcalc : calculate_next_due_date (p.next_due_date.getD "") p.frequency p.custom_interval with
    | some nd =>
      simp only [hcalc]
      apply ih _ _ hps
      intro r' hr' hid
      unfold set_next_due at hr'
      rcases List.mem_map.1 hr' with ⟨r0, hr0, rfl⟩
      by_cases h : r0.id = p.id
      · rw [if_pos h] at hid ⊢
        exfalso
        exact hp (by simpa [h] using hid)
      · rw [if_neg h] at hid ⊢
        exact hinv1 r0 hr0 hid
    | none =>
      simp only [hcalc]
      exact hinv1

/-- C10: a recurring pattern stored with a null `next_due_date` is never
reported as due (for any as-of date, whatever its flags) and is never
materialized: the materialization pass creates no transaction referencing
it and leaves its stored row untouched. -/
theorem C10_null_cursor_never_due (db : DB) (today : String) (now : PyDateTime)
    (nowTime : String) (r : RecurringRow)
    (hmem : r ∈ db.recurring_transactions)
    (hnull : r.next_due_date = none)
    (hnodup : (db.recurring_transactions.map (·.id)).Nodup) :
    r ∉ check_recurring_transactions db today ∧
    ((create_recurring_transaction_instances db now nowTime).1.transactions.filter
      (fun t => t.recurring_id == some r.id))
      = db.transactions.filter (fun t => t.recurring_id == some r.id) ∧
    ∀ r' ∈ (create_recurring_transaction_instances db now nowTime).1.recurring_transactions,
      r'.id = r.id → r' = r := by
  have hnotdue : ∀ td, r ∉ check_recurring_transactions db td := by
    intro td hin
    have hpred := (List.mem_filter.1 hin).2
    rw [hnull] at hpred
    simp [truthyStr] at hpred
  have hl : ∀ td, ∀ p ∈ check_recurring_transactions db td, p.id ≠ r.id := by
    intro td p hp heq
    have hpmem : p ∈ db.recurring_transactions := by
      have h1 := (List.mem_filter.1 hp).1
      unfold get_recurring_transactions at h1
      exact (List.mem_filter.1 (mem_sortByDue.1 h1)).1
    have : p = r := List.inj_on_of_nodup_map hnodup hpmem hmem heq
    rw [this] at hp
    exact hnotdue td hp
  refine ⟨hnotdue today, ?_, ?_⟩
  · exact createLoop_filter_frame now nowTime r.id _ db 0 (hl _)
  · apply createLoop_keep now nowTime r _ db 0 (hl _)
    intro r' hr' hid
    exact List.inj_on_of_nodup_map hnodup hr' hmem hid

/-- The pattern with a null cursor. -/
def recN : RecurringRow := { recR with next_due_date := none }

/-- Store holding only the null-cursor pattern. -/
def dbN : DB := { dbR with recurring_transactions := [recN] }

/-- Witness for C10: the null-cursor pattern is not reported as due on
2024-01-01. -/
theorem C10_null_cursor_never_due_witness :
    recN ∈ dbN.recurring_transactions ∧ recN.next_due_date = none ∧
    (dbN.recurring_transactions.map (·.id)).Nodup ∧
    recN ∉ check_recurring_transactions dbN "2024-01-01" :=
  ⟨by decide, rfl, by decide,
    (C10_null_cursor_never_due dbN "2024-01-01" ⟨2024, 1, 1, 0⟩ "10:00" recN
      (by decide) rfl (by decide)).1⟩

/-! ## Claim C6 -/

/-- An Expense whose `date` is the `datetime` 2024-01-01 12:00:00. -/
def tC6 : Transaction := { tW1 with date := PyDate.dt ⟨2024, 1, 1, 43200⟩ }

/-- Counterexample to C6 as stated: serializing a Transaction renders its
`datetime` as `YYYY-MM-DD` and parsing restores midnight, so a transaction
dated 2024-01-01 12:00:00 does not round-trip field-by-field. -/
theorem C6_roundtrip_counterexample :
    Transaction.from_dict (Transaction.to_dict tC6) "09:00" ≠ some tC6 := by decide

/-- C6 (amended): `from_dict ∘ to_dict` is the identity on Account,
RecurringTransaction, Budget, Category, Subcategory, Goal and Debt
unconditionally; for Transaction it is the identity exactly on values whose
`date` is a `datetime` at midnight of a valid calendar date (so parsing its
ISO rendering returns it) and whose `time` is nonempty — otherwise the
`date` (and possibly `time`) field is normalized rather than preserved. -/
theorem C6_roundtrip_amended :
    (∀ (t : Transaction) (dt : PyDateTime) (nowTime : String),
      t.date = PyDate.dt dt →
      strptimeYMD dt.strftimeYMD = some dt →
      t.time ≠ "" →
      Transaction.from_dict t.to_dict nowTime = some t) ∧
    (∀ a : Account, Account.from_dict a.to_dict = a) ∧
    (∀ r : RecurringTransaction, RecurringTransaction.from_dict r.to_dict = r) ∧
    (∀ b : Budget, Budget.from_dict b.to_dict = b) ∧
    (∀ c : Category, Category.from_dict c.to_dict = c) ∧
    (∀ s : Subcategory, Subcategory.from_dict s.to_dict = s) ∧
    (∀ g : Goal, Goal.from_dict g.to_dict = g) ∧
    (∀ d : Debt, Debt.from_dict d.to_dict = d) := by
  refine ⟨?_, fun a => rfl, fun r => rfl, fun b => rfl, fun c => rfl, fun s => rfl,
    fun g => rfl, fun d => rfl⟩
  intro t dt nowTime hdate hparse htime
  unfold Transaction.from_dict Transaction.to_dict
  simp only [hdate, PyDate.toStr, hparse]
  rw [if_neg htime, ← hdate]

/-- The same Expense dated at midnight 2024-01-01. -/
def tC6W : Transaction := { tW1 with date := PyDate.dt ⟨2024, 1, 1, 0⟩ }

/-- Witness for C6: the midnight-dated transaction with nonempty time
round-trips exactly. -/
theorem C6_roundtrip_amended_witness :
    tC6W.date = PyDate.dt ⟨2024, 1, 1, 0⟩ ∧
    strptimeYMD (PyDateTime.strftimeYMD ⟨2024, 1, 1, 0⟩) = some ⟨2024, 1, 1, 0⟩ ∧
    tC6W.time ≠ "" ∧
    Transaction.from_dict tC6W.to_dict "09:00" = some tC6W :=
  ⟨rfl, by decide, by decide,
    C6_roundtrip_amended.1 tC6W ⟨2024, 1, 1, 0⟩ "09:00" rfl (by decide) (by decide)⟩

end FinanceTracker
